import Mathlib

/-!
Verification development for the `plugin-polygon-zkevm` action handlers.

The TypeScript source defines a catalog of ElizaOS actions.  Each action has a
`validate` function over runtime settings and a `handler` that:
checks configuration, optionally consults an LLM to extract parameters,
issues JSON-RPC calls through an `ethers.JsonRpcProvider` (or `fetch` for the
Alchemy path of the block-details action), invokes an optional callback, and
returns a structured `ActionResult`.

We model each handler as a pure function of
  * the runtime `Settings` (what `runtime.getSetting` returns),
  * an environment record of oracles giving the outcome of each external call
    (LLM extraction, JSON-RPC requests), and
  * whether a callback was supplied (`cb : Bool`).
The run returns `Except String ActionResult` — `.error msg` means a JavaScript
exception escaped the handler (the promise rejected) — together with the list
of observable events (LLM calls, RPC calls with their target URL, callback
invocations) in the order the handler performs them.

JavaScript numbers appearing only in display strings (`toFixed`) are rendered
by an explicit decimal formatter; this abstracts IEEE-754 formatting, which no
claim depends on.  Hex strings returned by providers and parsed with `BigInt`
are modelled as the parsed integers where the parse is irrelevant to claims.
-/

namespace ZkEvm

/-- A JavaScript primitive value as produced by LLM extraction
(`string | number` fields). -/
inductive JsVal where
  | str (s : String)
  | num (n : Int)
  deriving Repr, DecidableEq

/-- JavaScript truthiness of a primitive: `""` and `0` are falsy. -/
def JsVal.truthy : JsVal → Bool
  | .str s => s ≠ ""
  | .num n => n ≠ 0

/-- Truthiness of a possibly-missing field (`undefined` is falsy). -/
def truthyOpt : Option JsVal → Bool
  | none => false
  | some v => v.truthy

/-- Truthiness of a possibly-missing string (`undefined` and `""` are falsy). -/
def truthyStr : Option String → Bool
  | none => false
  | some s => s ≠ ""

/-- Truthiness of a possibly-missing BigInt/number (`undefined` and `0` falsy). -/
def truthyInt : Option Int → Bool
  | none => false
  | some n => n ≠ 0

/-- `a || d` for a possibly-undefined string `a` (JS short-circuit on falsy). -/
def jsOr (v : Option String) (d : String) : String :=
  match v with
  | none => d
  | some s => if s = "" then d else s

/-- The runtime settings the actions read via `runtime.getSetting`. -/
structure Settings where
  alchemyApiKey : Option String
  zkevmRpcUrl : Option String
  zkevmAlchemyUrl : Option String
  privateKey : Option String
  deriving Repr, DecidableEq

/-- Observable events of a handler run, in program order. -/
inductive Event where
  /-- a call to the LLM (`runtime.useModel` / `callLLMWithTimeout`) -/
  | llm
  /-- a JSON-RPC (or Alchemy fetch) request: method name, target URL and
  rendered request parameters -/
  | rpc (callName : String) (url : String) (params : List String)
  /-- a callback invocation: the `text` and the `content.success` flag sent -/
  | cb (text : String) (success : Bool)
  deriving Repr, DecidableEq

/-- The fields of the returned `ActionResult` object that the specification
talks about.  `hasErrorValue` records whether the result carries a non-null
`error` value; `valuesRetrieved` models the per-action retrieved flag
(`gasPriceRetrieved`, `storageRetrieved`, `receiptRetrieved`,
`blockRetrieved`, `batchRetrieved`). -/
structure ActionResult where
  success : Bool
  text : String
  valuesRetrieved : Bool
  valuesError : Bool
  valuesErrorMessage : Option String
  dataActionName : String
  dataError : Option String
  dataErrors : List String
  dataMethod : Option String
  dataBlockNumber : Option Int
  dataBatchNumber : Option Int
  hasErrorValue : Bool
  deriving Repr, DecidableEq

instance {ε α : Type} [DecidableEq ε] [DecidableEq α] : DecidableEq (Except ε α) := fun x y =>
  match x, y with
  | .error a, .error b => if h : a = b then .isTrue (by simp [h]) else .isFalse (by simp [h])
  | .error _, .ok _ => .isFalse (by simp)
  | .ok _, .error _ => .isFalse (by simp)
  | .ok a, .ok b => if h : a = b then .isTrue (by simp [h]) else .isFalse (by simp [h])

/-- One handler run: the settled promise (`.error` = rejected with an escaped
exception) and the emitted events. -/
structure HandlerRun where
  result : Except String ActionResult
  events : List Event
  deriving Repr, DecidableEq

/-- Outcome of one external LLM call: the promise rejected with a message, or
resolved to a value of the expected shape. -/
inductive LLMRes (α : Type) where
  | throws (msg : String)
  | ok (v : α)
  deriving Repr, DecidableEq

/-- Left-pad with zeros to width `w`. -/
def padZeros (w : Nat) (s : String) : String :=
  String.mk (List.replicate (w - s.length) '0') ++ s

/-- Decimal rendering of `n / 10 ^ shift` to `d` places (truncating; abstracts
JS `Number` arithmetic and `toFixed`, which no claim depends on). -/
def fmtShift (n : Int) (shift d : Nat) : String :=
  let scaled : Int := n * (10 : Int) ^ d / (10 : Int) ^ shift
  let ip : Int := scaled / (10 : Int) ^ d
  let fp : Nat := (scaled % (10 : Int) ^ d).toNat
  toString ip ++ "." ++ padZeros d (toString fp)

/-- Default Alchemy gateway base URL shared by the handlers. -/
def defaultAlchemyBase : String := "https://polygonzkevm-mainnet.g.alchemy.com/v2"

/-- Default public RPC URL used only by the transaction-receipt handler. -/
def defaultPublicRpc : String := "https://zkevm-rpc.com"

/-- `runtime.getSetting('ZKEVM_ALCHEMY_URL') || <default>`. -/
def alchemyBaseUrl (s : Settings) : String :=
  jsOr s.zkevmAlchemyUrl defaultAlchemyBase

/-- The provider-selection lines repeated verbatim in the gas-price, storage
and batch-info handlers: prefer Alchemy (base URL suffixed with the key,
method `alchemy`), otherwise the raw `ZKEVM_RPC_URL` (method `rpc`).
Returns (provider URL, methodUsed). -/
def selectProvider (s : Settings) : String × String :=
  if truthyStr s.alchemyApiKey then
    (alchemyBaseUrl s ++ "/" ++ s.alchemyApiKey.getD "", "alchemy")
  else
    (s.zkevmRpcUrl.getD "", "rpc")

/-- The shared missing-configuration message. -/
def configErrorMessage : String :=
  "ALCHEMY_API_KEY or ZKEVM_RPC_URL is required in configuration."

/-! ### The validate functions

All five actions in the source use the identical body: return `false` iff
both `ALCHEMY_API_KEY` and `ZKEVM_RPC_URL` are absent/empty.  The message
argument is ignored by the source bodies, as is `PRIVATE_KEY`. -/

def getGasPriceValidate (s : Settings) (_messageText : String) : Bool :=
  if !(truthyStr s.alchemyApiKey) && !(truthyStr s.zkevmRpcUrl) then false else true

def getStorageAtValidate (s : Settings) (_messageText : String) : Bool :=
  if !(truthyStr s.alchemyApiKey) && !(truthyStr s.zkevmRpcUrl) then false else true

def getTransactionReceiptValidate (s : Settings) (_messageText : String) : Bool :=
  if !(truthyStr s.alchemyApiKey) && !(truthyStr s.zkevmRpcUrl) then false else true

def getBlockDetailsByNumberValidate (s : Settings) (_messageText : String) : Bool :=
  if !(truthyStr s.alchemyApiKey) && !(truthyStr s.zkevmRpcUrl) then false else true

def getBatchInfoValidate (s : Settings) (_messageText : String) : Bool :=
  if !(truthyStr s.alchemyApiKey) && !(truthyStr s.zkevmRpcUrl) then false else true

/-! ### getGasPrice -/

/-- Shape of the object the gas-price LLM validation step resolves to
(`{ requestGasPrice?: boolean; error?: string }`). -/
structure GasLLMOut where
  requestGasPrice : Option Bool
  error : Option String
  deriving Repr, DecidableEq

/-- `eth_maxFeePerGas` / `maxPriorityFeePerGas` of `provider.getFeeData()`. -/
structure FeeData where
  maxFeePerGas : Option Int
  maxPriorityFeePerGas : Option Int
  deriving Repr, DecidableEq

/-- External-call outcomes for one gas-price handler run.  `ethGasPrice` is
the `BigInt`-parsed value of the `eth_gasPrice` response. -/
structure GasEnv where
  llm : LLMRes GasLLMOut
  ethGasPrice : Except String Int
  feeData : Except String FeeData
  deriving Repr, DecidableEq

/-- The action name constant of the gas-price action. -/
def gasActionName : String := "POLYGON_ZKEVM_GET_GAS_PRICE"

/-- The success response text of the gas-price handler. -/
def gasSuccessText (wei : Int) (fd : Option FeeData) (method : String) : String :=
  let base :=
    "⛽ **Current Gas Price (Polygon zkEVM)**\n\n💸 **Gas Price:** "
      ++ fmtShift wei 9 4 ++ " Gwei (" ++ toString wei ++ " wei)\n🔗 **Method:** "
      ++ method
  let withFee :=
    match fd with
    | none => base
    | some f =>
        let b1 :=
          if truthyInt f.maxFeePerGas then
            base ++ "\n🔝 **Max Fee Per Gas:** "
              ++ fmtShift (f.maxFeePerGas.getD 0) 9 4 ++ " Gwei"
          else base
        if truthyInt f.maxPriorityFeePerGas then
          b1 ++ "\n⚡ **Max Priority Fee:** "
            ++ fmtShift (f.maxPriorityFeePerGas.getD 0) 9 4 ++ " Gwei"
        else b1
  withFee ++ "\n\n💰 **Estimated Transaction Costs:**\n📤 Simple Transfer: ~"
    ++ fmtShift (wei * 21000) 18 6 ++ " ETH\n🔄 Token Swap: ~"
    ++ fmtShift (wei * 150000) 18 6 ++ " ETH"

/-- The failure `ActionResult` literal shape repeated in the gas-price
handler (configuration failure and RPC failure). -/
def gasFailResult (msg : String) : ActionResult :=
  { success := false
    text := "\u274C " ++ msg
    valuesRetrieved := false
    valuesError := true
    valuesErrorMessage := some msg
    dataActionName := gasActionName
    dataError := some msg
    dataErrors := []
    dataMethod := none
    dataBlockNumber := none
    dataBatchNumber := none
    hasErrorValue := true }

/-- The gas-price handler (`getGasPriceAction.handler`).  The LLM validation
step is wrapped in a try/catch whose catch only logs, so the handler proceeds
to the RPC call whether or not the LLM step failed. -/
def getGasPriceHandler (s : Settings) (env : GasEnv) (cb : Bool) : HandlerRun :=
  if !(truthyStr s.alchemyApiKey) && !(truthyStr s.zkevmRpcUrl) then
    { result := .ok (gasFailResult configErrorMessage)
      events := if cb then [.cb configErrorMessage false] else [] }
  else
    let sel := selectProvider s
    let url := sel.1
    let methodUsed := sel.2
    match env.ethGasPrice with
    | .error e =>
        let msg := "Failed to retrieve gas price: " ++ e
        { result := .ok (gasFailResult msg)
          events := [.llm, .rpc "eth_gasPrice" url []]
            ++ (if cb then [.cb msg false] else []) }
    | .ok wei =>
        let fd : Option FeeData :=
          match env.feeData with
          | .error _ => none
          | .ok f => some f
        let responseText := gasSuccessText wei fd methodUsed
        { result := .ok
            { success := true
              text := responseText
              valuesRetrieved := true
              valuesError := false
              valuesErrorMessage := none
              dataActionName := gasActionName
              dataError := none
              dataErrors := []
              dataMethod := some methodUsed
              dataBlockNumber := none
              dataBatchNumber := none
              hasErrorValue := false }
          events := [.llm, .rpc "eth_gasPrice" url [], .rpc "getFeeData" url []]
            ++ (if cb then [.cb responseText true] else []) }

/-! ### getStorageAt -/

/-- Rendering of a JS primitive inside a template literal. -/
def JsVal.render : JsVal → String
  | .str s => s
  | .num n => toString n

def isHexDigit (c : Char) : Bool :=
  (decide ('0' ≤ c) && decide (c ≤ '9'))
    || (decide ('a' ≤ c) && decide (c ≤ 'f'))
    || (decide ('A' ≤ c) && decide (c ≤ 'F'))

def hexDigitVal (c : Char) : Nat :=
  if '0' ≤ c ∧ c ≤ '9' then c.toNat - '0'.toNat
  else if 'a' ≤ c ∧ c ≤ 'f' then c.toNat - 'a'.toNat + 10
  else if 'A' ≤ c ∧ c ≤ 'F' then c.toNat - 'A'.toNat + 10
  else 0

/-- All-hex-digit parse of a digit string; `none` on empty or invalid input. -/
def parseHexNat (l : List Char) : Option Nat :=
  if l.isEmpty || !(l.all isHexDigit) then none
  else some (l.foldl (fun acc c => acc * 16 + hexDigitVal c) 0)

/-- `BigInt(s)` on a `0x`-prefixed data-hex string: the parsed value, or
`none` when JS `BigInt` would throw a `SyntaxError`.  (Decimal input strings,
which providers never return for storage words, are not modelled.) -/
def bigIntParse (s : String) : Option Int :=
  if "0x".isPrefixOf s then (parseHexNat (s.toList.drop 2)).map Int.ofNat
  else none

/-- `parseInt(hexString.substr(i, 2), 16)` over successive pairs; `none`
models `NaN` (first character not a hex digit); a trailing lone character or
an invalid second character parses the valid prefix, as `parseInt` does. -/
def hexPairBytes : List Char → List (Option Nat)
  | [] => []
  | [c] => [if isHexDigit c then some (hexDigitVal c) else none]
  | c1 :: c2 :: rest =>
      (if isHexDigit c1 then
        some (if isHexDigit c2 then hexDigitVal c1 * 16 + hexDigitVal c2 else hexDigitVal c1)
      else none)
        :: hexPairBytes rest

/-- `bytes.filter((b) => b > 31 && b < 127)` with `NaN` entries dropped. -/
def printableBytes (l : List (Option Nat)) : List Nat :=
  l.filterMap fun ob =>
    match ob with
    | none => none
    | some b => if 31 < b ∧ b < 127 then some b else none

/-- The all-zero storage word compared against in the handler. -/
def zeroWord : String :=
  "0x0000000000000000000000000000000000000000000000000000000000000000"

/-- `storageValue.slice(-40)`. -/
def sliceLast40 (s : String) : String :=
  String.mk (s.toList.drop (s.length - 40))

/-- The regex test `^0x[a-fA-F0-9]\x7b40\x7d$`. -/
def isAddressHex (s : String) : Bool :=
  s.length == 42 && "0x".isPrefixOf s && (s.toList.drop 2).all isHexDigit

/-- The value-interpretation block of the storage handler; `.error` is the
`BigInt` conversion throwing (which the source does not catch). -/
def storageInterp (storageValue : String) : Except String String :=
  if storageValue = zeroWord then .ok "💡 **Interpretation:** Empty/Zero value"
  else
    match bigIntParse storageValue with
    | none => .error ("Cannot convert " ++ storageValue ++ " to a BigInt")
    | some v =>
        let possibleAddress := "0x" ++ sliceLast40 storageValue
        let t1 :=
          if 0 < v ∧ v < (2 : Int) ^ 160 then
            if isAddressHex possibleAddress then
              "🏠 **Possible Address:** \x60" ++ possibleAddress ++ "\x60\n"
            else ""
          else ""
        let t2 :=
          if v < (2 : Int) ^ 64 then "🔢 **As Decimal:** " ++ toString v ++ "\n" else ""
        let text :=
          String.mk ((printableBytes (hexPairBytes (storageValue.toList.drop 2))).map
            Char.ofNat)
        let t3 :=
          if text.length > 0 ∧ text.trim.length > 0 then
            "📝 **As Text:** \"" ++ text.trim ++ "\""
          else ""
        .ok (t1 ++ t2 ++ t3)

/-- Shape of the object the storage LLM extraction resolves to
(`\x7b address; position; blockTag?; error? \x7d`). -/
structure StorageLLMOut where
  address : Option JsVal
  position : Option JsVal
  blockTag : Option JsVal
  error : Option String
  deriving Repr, DecidableEq

/-- External-call outcomes for one storage handler run. -/
structure StorageEnv where
  llm : LLMRes StorageLLMOut
  getStorage : Except String String
  deriving Repr, DecidableEq

def storageActionName : String := "POLYGON_ZKEVM_GET_STORAGE"

/-- The failure `ActionResult` literal shape repeated in the storage handler. -/
def storageFailResult (msg : String) : ActionResult :=
  { success := false
    text := "❌ " ++ msg
    valuesRetrieved := false
    valuesError := true
    valuesErrorMessage := some msg
    dataActionName := storageActionName
    dataError := some msg
    dataErrors := []
    dataMethod := none
    dataBlockNumber := none
    dataBatchNumber := none
    hasErrorValue := true }

def storageExtractFailMsg (m : String) : String :=
  "[getStorageAtAction] Failed to extract storage parameters from input: " ++ m

/-- The storage handler (`getStorageAtAction.handler`).  Note that the
`provider.getStorage` call (and the `BigInt` conversion after it) is not
inside any try/catch: a throw there escapes the handler (`result = .error`). -/
def getStorageAtHandler (s : Settings) (env : StorageEnv) (cb : Bool) : HandlerRun :=
  if !(truthyStr s.alchemyApiKey) && !(truthyStr s.zkevmRpcUrl) then
    { result := .ok (storageFailResult configErrorMessage)
      events := if cb then [.cb configErrorMessage false] else [] }
  else
    let extraction : Except String StorageLLMOut :=
      match env.llm with
      | .throws m => .error m
      | .ok v =>
          if truthyStr v.error then .error (v.error.getD "")
          else if !(truthyOpt v.address) || !(truthyOpt v.position) then
            .error "Invalid storage parameters received from LLM."
          else .ok v
    match extraction with
    | .error m =>
        let msg := storageExtractFailMsg m
        { result := .ok (storageFailResult msg)
          events := [.llm] ++ (if cb then [.cb msg false] else []) }
    | .ok v =>
        let address := v.address.getD (.str "")
        let position := v.position.getD (.str "")
        let blockTag := if truthyOpt v.blockTag then v.blockTag.getD (.str "") else .str "latest"
        let sel := selectProvider s
        let url := sel.1
        let methodUsed := sel.2
        match env.getStorage with
        | .error e => { result := .error e, events := [.llm, .rpc "eth_getStorageAt" url [address.render, position.render, blockTag.render]] }
        | .ok storageValue =>
            match storageInterp storageValue with
            | .error e => { result := .error e, events := [.llm, .rpc "eth_getStorageAt" url [address.render, position.render, blockTag.render]] }
            | .ok interp =>
                let responseText :=
                  "🗄️ **Storage Value (Polygon zkEVM)**\n\n**Contract:** \x60"
                    ++ address.render ++ "\x60\n**Position:** " ++ position.render
                    ++ "\n**Block:** " ++ blockTag.render ++ "\n**Value:** \x60"
                    ++ storageValue ++ "\x60\n**Method:** " ++ methodUsed ++ "\n\n" ++ interp
                { result := .ok
                    { success := true
                      text := responseText
                      valuesRetrieved := true
                      valuesError := false
                      valuesErrorMessage := none
                      dataActionName := storageActionName
                      dataError := none
                      dataErrors := []
                      dataMethod := some methodUsed
                      dataBlockNumber := none
                      dataBatchNumber := none
                      hasErrorValue := false }
                  events := [.llm, .rpc "eth_getStorageAt" url [address.render, position.render, blockTag.render]]
                    ++ (if cb then [.cb responseText true] else []) }

/-! ### getTransactionReceipt -/

/-- Attempt of the regex `0x[a-fA-F0-9]\x7b64\x7d` at the head of the text. -/
def matchHashAt : List Char → Option (List Char)
  | c1 :: c2 :: rest =>
      if c1 = '0' ∧ c2 = 'x' ∧ (rest.take 64).length = 64 ∧ (rest.take 64).all isHexDigit then
        some (c1 :: c2 :: rest.take 64)
      else none
  | [] => none
  | [_] => none

/-- `text.match(/0x[a-fA-F0-9]\x7b64\x7d/)`: the leftmost match, if any. -/
def firstTxHash : List Char → Option String
  | [] => none
  | c :: rest =>
      match matchHashAt (c :: rest) with
      | some m => some (String.mk m)
      | none => firstTxHash rest

/-- The fields of an ethers `TransactionReceipt` the handler reads.
`sender`/`recipient` model `from`/`to`; `gasPrice` is the effective gas
price (null possible); `logsCount` is `receipt.logs.length`. -/
structure Receipt where
  status : Int
  hash : String
  blockNumber : Int
  sender : String
  recipient : Option String
  gasUsed : Option Int
  gasPrice : Option Int
  index : Int
  contractAddress : Option String
  logsCount : Nat
  deriving Repr, DecidableEq

/-- External-call outcome for one receipt handler run: the provider call
rejects, or resolves to `null` or a receipt. -/
structure ReceiptEnv where
  getTransactionReceipt : Except String (Option Receipt)
  deriving Repr, DecidableEq

def receiptActionName : String := "POLYGON_ZKEVM_GET_TRANSACTION_RECEIPT"

/-- The failure `ActionResult` literal shape repeated in the receipt handler. -/
def receiptFailResult (msg : String) : ActionResult :=
  { success := false
    text := "❌ " ++ msg
    valuesRetrieved := false
    valuesError := true
    valuesErrorMessage := some msg
    dataActionName := receiptActionName
    dataError := some msg
    dataErrors := []
    dataMethod := none
    dataBlockNumber := none
    dataBatchNumber := none
    hasErrorValue := true }

def noHashText : String :=
  "Please provide a valid transaction hash (0x... 64 characters) to get the transaction receipt."

/-- `receipt.status === 1 ? \x27✅ Success\x27 : \x27❌ Failed\x27`. -/
def receiptStatusStr (st : Int) : String :=
  if st = 1 then "✅ Success" else "❌ Failed"

/-- The receipt response text up to and including the `📊 Status: ` label. -/
def receiptTextBefore (txHash : String) (r : Receipt) : String :=
  "Transaction Receipt for " ++ txHash ++ ":\n📋 Hash: " ++ r.hash
    ++ "\n🔗 Block: " ++ toString r.blockNumber ++ "\n📍 From: " ++ r.sender
    ++ "\n📍 To: " ++ jsOr r.recipient "Contract Creation" ++ "\n📊 Status: "

/-- The receipt response text after the status string. -/
def receiptTextAfter (r : Receipt) : String :=
  let gasUsedStr := match r.gasUsed with | none => "undefined" | some g => toString g
  let egp := if truthyInt r.gasPrice then fmtShift (r.gasPrice.getD 0) 9 2 else "N/A"
  let base :=
    "\n⛽ Gas Used: " ++ gasUsedStr ++ " (N/A% of limit)\n💸 Effective Gas Price: "
      ++ egp ++ " Gwei\n🔢 Transaction Index: " ++ toString r.index
  let b2 :=
    if truthyStr r.contractAddress then
      base ++ "\n🏗️ Contract Created: " ++ r.contractAddress.getD ""
    else base
  if r.logsCount > 0 then b2 ++ "\n📝 Logs: " ++ toString r.logsCount ++ " events emitted"
  else b2

/-- The full success response text of the receipt handler. -/
def receiptText (txHash : String) (r : Receipt) : String :=
  receiptTextBefore txHash r ++ receiptStatusStr r.status ++ receiptTextAfter r

/-- The success `ActionResult` literal of the receipt handler. -/
def receiptSuccessResult (txHash : String) (r : Receipt) : ActionResult :=
  { success := true
    text := receiptText txHash r
    valuesRetrieved := true
    valuesError := false
    valuesErrorMessage := none
    dataActionName := receiptActionName
    dataError := none
    dataErrors := []
    dataMethod := none
    dataBlockNumber := some r.blockNumber
    dataBatchNumber := none
    hasErrorValue := false }

/-- The catch block of the receipt handler.  Its own unconditional
`await callback(...)` throws a `TypeError` when no callback was supplied,
which escapes the handler. -/
def receiptCatch (cb : Bool) (evs : List Event) (m : String) : HandlerRun :=
  let errText := "Error getting transaction receipt: " ++ m
  if cb then
    { result := .ok (receiptFailResult errText), events := evs ++ [.cb errText false] }
  else
    { result := .error "callback is not a function", events := evs }

/-- The receipt provider URL: Alchemy when the key is set, otherwise
`ZKEVM_RPC_URL` with a hard default of the public RPC endpoint.  This handler
never records a `method` in its results. -/
def receiptProviderUrl (s : Settings) : String :=
  if truthyStr s.alchemyApiKey then alchemyBaseUrl s ++ "/" ++ s.alchemyApiKey.getD ""
  else jsOr s.zkevmRpcUrl defaultPublicRpc

/-- The transaction-receipt handler (`getTransactionReceiptAction.handler`).
There is no configuration guard and no LLM step: the hash is extracted with a
regex from the message text.  Every callback invocation is unconditional
(`await callback(...)`), so running without a callback throws inside the try,
and the catch block rethrows the same way. -/
def getTransactionReceiptHandler (s : Settings) (env : ReceiptEnv) (cb : Bool)
    (messageText : String) : HandlerRun :=
  match firstTxHash messageText.toList with
  | none =>
      if cb then
        { result := .ok (receiptFailResult noHashText), events := [.cb noHashText false] }
      else receiptCatch cb [] "callback is not a function"
  | some txHash =>
      let url := receiptProviderUrl s
      let rpcEv : Event := .rpc "eth_getTransactionReceipt" url [txHash]
      match env.getTransactionReceipt with
      | .error e => receiptCatch cb [rpcEv] e
      | .ok none =>
          let errText :=
            "Transaction receipt not found: " ++ txHash
              ++ ". The transaction may be pending or does not exist."
          if cb then
            { result := .ok (receiptFailResult errText)
              events := [rpcEv, .cb errText false] }
          else receiptCatch cb [rpcEv] "callback is not a function"
      | .ok (some r) =>
          let responseText := receiptText txHash r
          if cb then
            { result := .ok (receiptSuccessResult txHash r)
              events := [rpcEv, .cb responseText true] }
          else receiptCatch cb [rpcEv] "callback is not a function"

/-! ### getBlockDetailsByNumber -/

/-- `n.toString(16)` for a JS number holding an integer. -/
def intToHex (n : Int) : String :=
  if n < 0 then "-" ++ String.mk (Nat.toDigits 16 n.natAbs)
  else String.mk (Nat.toDigits 16 n.toNat)

/-- Is the optional extracted field a number (`typeof x === "number"`)? -/
def isNumOpt : Option JsVal → Bool
  | some (.num _) => true
  | _ => false

/-- A block object as returned by the Alchemy fetch or `provider.getBlock`:
its `JSON.stringify(·, null, 2)` rendering plus the two fields the handler
projects out for the zkEVM-specific section. -/
structure BlockJson where
  rendered : String
  zkProverVersion : Option String
  batchIndex : Option Int
  deriving Repr, DecidableEq

/-- Outcome of the Alchemy fetch: the fetch/HTTP/JSON stage threw (or the
response carried an `error` object — the handler turns all of these into a
local throw), or it produced `data.result` (possibly null). -/
inductive AlchemyRes where
  | throws (msg : String)
  | result (blk : Option BlockJson)
  deriving Repr, DecidableEq

/-- Shape of the object the block-number LLM extraction resolves to. -/
structure BlockLLMOut where
  blockNumber : Option JsVal
  error : Option String
  deriving Repr, DecidableEq

/-- External-call outcomes for one block-details handler run. -/
structure BlockEnv where
  llm : LLMRes BlockLLMOut
  alchemy : AlchemyRes
  rpcGetBlock : Except String (Option BlockJson)
  deriving Repr, DecidableEq

def blockActionName : String := "POLYGON_ZKEVM_GET_BLOCK_DETAILS_BY_NUMBER"

/-- The failure `ActionResult` literal shape of the early failure returns of
the block-details handler (configuration, LLM, invalid number). -/
def blockFailResult (msg : String) : ActionResult :=
  { success := false
    text := "❌ " ++ msg
    valuesRetrieved := false
    valuesError := true
    valuesErrorMessage := some msg
    dataActionName := blockActionName
    dataError := some msg
    dataErrors := []
    dataMethod := none
    dataBlockNumber := none
    dataBatchNumber := none
    hasErrorValue := true }

/-- `JSON.stringify(zkevmFields, null, 2)` where undefined fields are
omitted. -/
def renderZkFields (v : Option String) (i : Option Int) : String :=
  let fields :=
    (match v with
      | some sv => ["\"zkProverVersion\": \"" ++ sv ++ "\""]
      | none => []) ++
    (match i with
      | some n => ["\"batchIndex\": " ++ toString n]
      | none => [])
  if fields.isEmpty then "\x7b\x7d"
  else "\x7b\n  " ++ String.intercalate ",\n  " fields ++ "\n\x7d"

/-- The success response text of the block-details handler. -/
def blockSuccessText (n : Int) (method : String) (b : BlockJson) : String :=
  "Here are the details for Polygon zkEVM block " ++ toString n ++ " (via "
    ++ method ++ "):\n\n\x60\x60\x60json\n" ++ b.rendered
    ++ "\n\x60\x60\x60\nZK-specific fields: "
    ++ renderZkFields b.zkProverVersion b.batchIndex

/-- The final failure message of the block-details handler, naming the block
number and joining the accumulated per-provider error messages. -/
def blockBothFailedMsg (n : Int) (errs : List String) : String :=
  "Failed to retrieve details for Polygon zkEVM block " ++ toString n
    ++ " using both Alchemy and RPC. Errors: " ++ String.intercalate "; " errs
    ++ ". It\x27s possible the block number is invalid or the block does not exist yet."

/-- The success `ActionResult` of the block-details handler. -/
def blockSuccessResult (n : Int) (method : String) (b : BlockJson) : ActionResult :=
  { success := true
    text := blockSuccessText n method b
    valuesRetrieved := true
    valuesError := false
    valuesErrorMessage := none
    dataActionName := blockActionName
    dataError := none
    dataErrors := []
    dataMethod := some method
    dataBlockNumber := none
    dataBatchNumber := none
    hasErrorValue := false }

/-- The final failure `ActionResult` of the block-details handler, returned
when both providers yielded no block: it names the block number and carries
the accumulated per-provider error messages. -/
def blockBothFailResult (n : Int) (errs : List String) : ActionResult :=
  { success := false
    text := "\u274C " ++ blockBothFailedMsg n errs
    valuesRetrieved := false
    valuesError := true
    valuesErrorMessage := some (blockBothFailedMsg n errs)
    dataActionName := blockActionName
    dataError := some (blockBothFailedMsg n errs)
    dataErrors := errs
    dataMethod := none
    dataBlockNumber := some n
    dataBatchNumber := none
    hasErrorValue := true }

/-- The block-details handler (`getBlockDetailsByNumberAction.handler`):
configuration guard, LLM extraction (failure is fatal here), rejection of
falsy/non-number block numbers, then an Alchemy attempt (when the key is set)
with a JSON-RPC fallback (when the Alchemy attempt produced no block and
`ZKEVM_RPC_URL` is set). -/
def getBlockDetailsByNumberHandler (s : Settings) (env : BlockEnv) (cb : Bool) : HandlerRun :=
  if !(truthyStr s.alchemyApiKey) && !(truthyStr s.zkevmRpcUrl) then
    { result := .ok (blockFailResult configErrorMessage)
      events := if cb then [.cb configErrorMessage false] else [] }
  else
    let extraction : Except String BlockLLMOut :=
      match env.llm with
      | .throws m => .error m
      | .ok v => if truthyStr v.error then .error (v.error.getD "") else .ok v
    match extraction with
    | .error _ =>
        let msg := "[getBlockDetailsByNumberAction] OBJECT_LARGE model failed"
        { result := .ok (blockFailResult msg)
          events := [.llm] ++ (if cb then [.cb msg false] else []) }
    | .ok v =>
        if !(truthyOpt v.blockNumber) || !(isNumOpt v.blockNumber) then
          let msg := "Invalid block number extracted from input"
          { result := .ok (blockFailResult msg)
            events := [.llm] ++ (if cb then [.cb msg false] else []) }
        else
          let n : Int := match v.blockNumber with | some (.num k) => k | _ => 0
          let hex := "0x" ++ intToHex n
          let aTried := truthyStr s.alchemyApiKey
          let alchemyUrl := alchemyBaseUrl s ++ "/" ++ s.alchemyApiKey.getD ""
          let aEvents : List Event :=
            if aTried then [.rpc "eth_getBlockByNumber" alchemyUrl [hex, "true"]] else []
          let step1 : Option (BlockJson × String) × List String :=
            if aTried then
              match env.alchemy with
              | .throws m => (none, ["Alchemy API failed: " ++ m])
              | .result none => (none, [])
              | .result (some b) => (some (b, "alchemy"), [])
            else (none, [])
          let rTried := step1.1.isNone && truthyStr s.zkevmRpcUrl
          let rUrl := s.zkevmRpcUrl.getD ""
          let rEvents : List Event :=
            if rTried then [.rpc "eth_getBlockByNumber" rUrl [toString n, "true"]] else []
          let step2 : Option (BlockJson × String) × List String :=
            if rTried then
              match env.rpcGetBlock with
              | .error m => (step1.1, step1.2 ++ ["JSON-RPC fallback failed: " ++ m])
              | .ok none => (step1.1, step1.2)
              | .ok (some b) => (some (b, "rpc"), step1.2)
            else step1
          match step2.1 with
          | some bm =>
              let successText := blockSuccessText n bm.2 bm.1
              { result := .ok (blockSuccessResult n bm.2 bm.1)
                events := [.llm] ++ aEvents ++ rEvents
                  ++ (if cb then [.cb successText true] else []) }
          | none =>
              let msg := blockBothFailedMsg n step2.2
              { result := .ok (blockBothFailResult n step2.2)
                events := [.llm] ++ aEvents ++ rEvents
                  ++ (if cb then [.cb ("\u274C " ++ msg) false] else []) }

/-! ### getBatchInfo

The source file of this action is stored with a broken character encoding:
the bytes of `❌` and `📦` appear as the literal character sequences
U+201A U+00F9 U+00E5 and U+F8FF U+00FC U+00EC U+00B6 in its template
literals.  The model reproduces the file as it is. -/

/-- The mojibake sequence standing where `❌` appears in the other actions. -/
def batchCrossMark : String := "\u201A\u00F9\u00E5"

/-- The mojibake sequence standing where `📦` would appear. -/
def batchPackageMark : String := "üì¶"

/-- Shape of the object the batch-number LLM extraction resolves to. -/
structure BatchLLMOut where
  batchNumber : Option JsVal
  error : Option String
  deriving Repr, DecidableEq

/-- The batch object returned by the zkEVM batch RPC methods, projected to
the fields the handler reads. -/
structure BatchData where
  blockRange : Option (Int × Int)
  status : Option String
  timestamp : Option Int
  transactionCount : Option Int
  deriving Repr, DecidableEq

/-- External-call outcomes for one batch-info handler run.  `now` is
`Date.now()`, used only for unprojected `data.batchInfo.timestamp`. -/
structure BatchEnv where
  llm : LLMRes BatchLLMOut
  getBatchByNumber : Except String (Option BatchData)
  getBatch : Except String (Option BatchData)
  now : Int
  deriving Repr, DecidableEq

def batchActionName : String := "POLYGON_ZKEVM_GET_BATCH_INFO"

/-- The failure `ActionResult` literal shape of the early failure returns of
the batch handler; the text prefix is the mojibake sequence, not `❌`. -/
def batchFailResult (msg : String) : ActionResult :=
  { success := false
    text := batchCrossMark ++ " " ++ msg
    valuesRetrieved := false
    valuesError := true
    valuesErrorMessage := some msg
    dataActionName := batchActionName
    dataError := some msg
    dataErrors := []
    dataMethod := none
    dataBlockNumber := none
    dataBatchNumber := none
    hasErrorValue := true }

def batchExtractFailMsg (m : String) : String :=
  "[getBatchInfoAction] Failed to extract batch number from input: " ++ m

/-- The success response text of the batch handler (`data.batchInfo`
subfields other than those displayed are not projected). -/
def batchSuccessText (n : Int) (status : String) (blockRange : Option (Int × Int))
    (tc : Int) (method : String) (errs : List String) : String :=
  batchPackageMark ++ " **Batch Information (Polygon zkEVM)**\n\n**Batch Number:** "
    ++ toString n ++ "\n**Status:** " ++ status ++ "\n**Block Range:** "
    ++ (match blockRange with
        | some r => toString r.1 ++ " - " ++ toString r.2
        | none => "N/A")
    ++ "\n**Transaction Count:** " ++ (if tc = 0 then "N/A" else toString tc)
    ++ "\n**Method:** " ++ method ++ "\n\n"
    ++ (if errs.length > 0 then
          "\n**Warnings:**\n" ++ String.intercalate "\n" (errs.map fun m => "- " ++ m)
        else "")

/-- The final failure message of the batch handler: names the batch number
and joins the accumulated error messages. -/
def batchNotFoundMsg (n : Int) (errs : List String) : String :=
  "Failed to retrieve batch information for batch " ++ toString n ++ ". "
    ++ String.intercalate "; " errs

/-- The final failure `ActionResult` of the batch handler (batch not found or
batch RPC methods unavailable). -/
def batchNotFoundResult (n : Int) (errs : List String) : ActionResult :=
  { success := false
    text := batchCrossMark ++ " " ++ batchNotFoundMsg n errs
    valuesRetrieved := false
    valuesError := true
    valuesErrorMessage := some (batchNotFoundMsg n errs)
    dataActionName := batchActionName
    dataError := some (batchNotFoundMsg n errs)
    dataErrors := errs
    dataMethod := none
    dataBlockNumber := none
    dataBatchNumber := some n
    hasErrorValue := true }

/-- The batch-info handler (`getBatchInfoAction.handler`): configuration
guard, LLM extraction (failure is fatal, `0` and non-numbers rejected), then
`zkevm_getBatchByNumber` with a `zkevm_getBatch` retry; a null/failed batch
yields a failure result carrying the accumulated error messages. -/
def getBatchInfoHandler (s : Settings) (env : BatchEnv) (cb : Bool) : HandlerRun :=
  if !(truthyStr s.alchemyApiKey) && !(truthyStr s.zkevmRpcUrl) then
    { result := .ok (batchFailResult configErrorMessage)
      events := if cb then [.cb configErrorMessage false] else [] }
  else
    let extraction : Except String BatchLLMOut :=
      match env.llm with
      | .throws m => .error m
      | .ok v =>
          if truthyStr v.error then .error (v.error.getD "")
          else if !(truthyOpt v.batchNumber) || !(isNumOpt v.batchNumber) then
            .error "Invalid batch number received from LLM."
          else .ok v
    match extraction with
    | .error m =>
        let msg := batchExtractFailMsg m
        { result := .ok (batchFailResult msg)
          events := [.llm] ++ (if cb then [.cb msg false] else []) }
    | .ok v =>
        let n : Int := match v.batchNumber with | some (.num k) => k | _ => 0
        let sel := selectProvider s
        let url := sel.1
        let methodUsed := sel.2
        let rpc1 : Event := .rpc "zkevm_getBatchByNumber" url [toString n]
        let rpc2 : Event := .rpc "zkevm_getBatch" url [toString n]
        let succeed : BatchData → List Event → HandlerRun := fun d evs =>
          let status := jsOr d.status "unknown"
          let tc := d.transactionCount.getD 0
          let responseText := batchSuccessText n status d.blockRange tc methodUsed []
          { result := .ok
              { success := true
                text := responseText
                valuesRetrieved := true
                valuesError := false
                valuesErrorMessage := none
                dataActionName := batchActionName
                dataError := none
                dataErrors := []
                dataMethod := some methodUsed
                dataBlockNumber := none
                dataBatchNumber := none
                hasErrorValue := false }
            events := evs ++ (if cb then [.cb responseText true] else []) }
        let notFound : List String → List Event → HandlerRun := fun errs evs =>
          { result := .ok (batchNotFoundResult n errs)
            events := evs
              ++ (if cb then [.cb (batchCrossMark ++ " " ++ batchNotFoundMsg n errs) false]
                  else []) }
        match env.getBatchByNumber with
        | .ok (some d) => succeed d [.llm, rpc1]
        | .ok none => notFound [] [.llm, rpc1]
        | .error _ =>
            match env.getBatch with
            | .ok (some d) => succeed d [.llm, rpc1, rpc2]
            | .ok none => notFound [] [.llm, rpc1, rpc2]
            | .error _ =>
                notFound
                  ["Failed to get batch info: Batch information not available via RPC methods"]
                  [.llm, rpc1, rpc2]

/-! ### Claim-statement helpers -/

/-- `sub` occurs as a substring of `s`. -/
def containsSub (s sub : String) : Prop := ∃ a b, s = a ++ sub ++ b

/-- Is this event a JSON-RPC/Alchemy request? -/
def isRpcEvent : Event → Bool
  | .rpc _ _ _ => true
  | _ => false

/-- The run issued no RPC request at all. -/
def noRpc (run : HandlerRun) : Prop :=
  run.events.all (fun e => !(isRpcEvent e)) = true

/-- A `0x`-prefixed 64-hex-digit transaction hash, as a character list
(the shape the receipt regex looks for). -/
def isHashChars (h : List Char) : Bool :=
  match h with
  | c1 :: c2 :: ds => c1 == '0' && c2 == 'x' && (ds.length == 64 && ds.all isHexDigit)
  | _ => false

/-- The behaviour the specification ascribes to a handler invoked with both
credentials missing: a structured failure result whose text contains the
configuration message, carrying an error value, a callback invocation with
that message when a callback is supplied, and no RPC request. -/
def configFailureBehavior (run : HandlerRun) (cb : Bool) : Prop :=
  ∃ res, run.result = .ok res ∧ res.success = false
    ∧ containsSub res.text configErrorMessage
    ∧ res.hasErrorValue = true
    ∧ (cb = true → Event.cb configErrorMessage false ∈ run.events)
    ∧ noRpc run

/-- The result-shape invariant of claim C10, relative to an action name and a
failure-text prefix: the structured data always names the action, and any
failure result has the prefixed text, `values.error = true` with an error
message, and a non-null error value. -/
def failureShape (res : ActionResult) (name pre : String) : Prop :=
  res.dataActionName = name
  ∧ (res.success = false →
      (∃ rest, res.text = pre ++ rest)
      ∧ res.valuesError = true
      ∧ res.valuesErrorMessage.isSome = true
      ∧ res.hasErrorValue = true)

/-! ### Sample inputs used by counterexamples and witnesses -/

def settingsNone : Settings := ⟨none, none, none, none⟩

def settingsRpc : Settings := ⟨none, some "https://rpc.example", none, none⟩

def settingsAlchemy : Settings := ⟨some "KEY", none, none, none⟩

def settingsBoth : Settings := ⟨some "KEY", some "https://rpc.example", none, none⟩

def sampleHash : String :=
  "0x1111111111111111111111111111111111111111111111111111111111111111"

def sampleMsg : String := "get receipt for " ++ sampleHash

def sampleReceipt : Receipt :=
  ⟨1, sampleHash, 77, "0xabc", some "0xdef", some 21000, some 20000000000, 0, none, 2⟩

def receiptEnvFound : ReceiptEnv := ⟨.ok (some sampleReceipt)⟩

def receiptEnvMissing : ReceiptEnv := ⟨.ok none⟩

def gasEnv0 : GasEnv := ⟨.ok ⟨none, none⟩, .ok 1000000000, .ok ⟨none, none⟩⟩

def gasEnvLLMFail : GasEnv := ⟨.throws "llm down", .ok 2000000000, .ok ⟨none, none⟩⟩

def storageLLM0 : StorageLLMOut := ⟨some (.str "0xc0ffee"), some (.num 1), none, none⟩

def storageEnv0 : StorageEnv := ⟨.ok storageLLM0, .ok zeroWord⟩

def storageEnvThrow : StorageEnv := ⟨.ok storageLLM0, .error "network down"⟩

def blockEnv0 : BlockEnv := ⟨.ok ⟨some (.num 5), none⟩, .result none, .ok none⟩

def blockEnvBothFail : BlockEnv :=
  ⟨.ok ⟨some (.num 5), none⟩, .throws "alchemy boom", .error "rpc boom"⟩

def batchEnv0 : BatchEnv := ⟨.ok ⟨some (.num 7), none⟩, .ok none, .ok none, 0⟩

def batchEnvBothFail : BatchEnv :=
  ⟨.ok ⟨some (.num 7), none⟩, .error "m1 missing", .error "m2 missing", 0⟩

def storageLLMZero : StorageLLMOut := ⟨some (.str "0xc0ffee"), some (.num 0), none, none⟩

def storageEnvZero : StorageEnv := ⟨.ok storageLLMZero, .ok zeroWord⟩

def blockLLMZero : BlockLLMOut := ⟨some (.num 0), none⟩

def blockEnvZero : BlockEnv := ⟨.ok blockLLMZero, .result none, .ok none⟩

def batchLLMZero : BatchLLMOut := ⟨some (.num 0), none⟩

def batchEnvZero : BatchEnv := ⟨.ok batchLLMZero, .ok none, .ok none, 0⟩

def receiptEnvThrow : ReceiptEnv := ⟨.error "provider down"⟩

def gasEnvRpcFail : GasEnv := ⟨.ok ⟨none, none⟩, .error "gas down", .ok ⟨none, none⟩⟩

def blockLLM5 : BlockLLMOut := ⟨some (.num 5), none⟩

def batchLLM7 : BatchLLMOut := ⟨some (.num 7), none⟩

def sampleBlockJson : BlockJson := ⟨"\x7b\x7d", none, some 9⟩

def blockEnvAlcOk : BlockEnv := ⟨.ok blockLLM5, .result (some sampleBlockJson), .ok none⟩

def storageEnvLLMThrow : StorageEnv := ⟨.throws "llm down", .ok zeroWord⟩

/-- The block produced by the Alchemy attempt, if any. -/
def AlchemyRes.block : AlchemyRes → Option BlockJson
  | .throws _ => none
  | .result b => b

/-- The error message the Alchemy attempt contributes to `errorMessages`. -/
def AlchemyRes.errs : AlchemyRes → List String
  | .throws m => ["Alchemy API failed: " ++ m]
  | .result _ => []

/-- The block produced by the JSON-RPC fallback, if any. -/
def rpcBlockOf : Except String (Option BlockJson) → Option BlockJson
  | .error _ => none
  | .ok b => b

/-- The error message the JSON-RPC fallback contributes to `errorMessages`. -/
def rpcErrsOf : Except String (Option BlockJson) → List String
  | .error m => ["JSON-RPC fallback failed: " ++ m]
  | .ok _ => []

/-! ## Shared lemmas -/

theorem guard_of_present {a b : Bool} (h : (a || b) = true) : (!a && !b) = false := by
  cases a <;> cases b <;> simp_all

theorem guard_of_absent {a b : Bool} (ha : a = false) (hb : b = false) :
    (!a && !b) = true := by
  rw [ha, hb]; rfl

theorem containsSub_left (p s : String) : containsSub (p ++ s) s :=
  ⟨p, "", by rw [String.append_empty]⟩

theorem containsSub_mid (p q s : String) : containsSub (p ++ (q ++ s)) s :=
  ⟨p ++ q, "", by rw [String.append_empty, String.append_assoc]⟩

theorem containsSub_here (p s r : String) : containsSub (p ++ (s ++ r)) s :=
  ⟨p, r, by simp [String.append_assoc]⟩

/-! ## C7 — the validate functions -/

/-- **C7.** For each action in the source snapshot, `validate` returns
`true` iff at least one of `ALCHEMY_API_KEY` and `ZKEVM_RPC_URL` is present
and non-empty, and it depends neither on the message content nor on
`PRIVATE_KEY`. -/
theorem claim7_validate_iff (s : Settings) (mt mt2 : String) (k : Option String) :
    (getGasPriceValidate s mt = (truthyStr s.alchemyApiKey || truthyStr s.zkevmRpcUrl)
      ∧ getStorageAtValidate s mt = (truthyStr s.alchemyApiKey || truthyStr s.zkevmRpcUrl)
      ∧ getTransactionReceiptValidate s mt
          = (truthyStr s.alchemyApiKey || truthyStr s.zkevmRpcUrl)
      ∧ getBlockDetailsByNumberValidate s mt
          = (truthyStr s.alchemyApiKey || truthyStr s.zkevmRpcUrl)
      ∧ getBatchInfoValidate s mt = (truthyStr s.alchemyApiKey || truthyStr s.zkevmRpcUrl))
    ∧ (getGasPriceValidate s mt = getGasPriceValidate { s with privateKey := k } mt2
      ∧ getStorageAtValidate s mt = getStorageAtValidate { s with privateKey := k } mt2
      ∧ getTransactionReceiptValidate s mt
          = getTransactionReceiptValidate { s with privateKey := k } mt2
      ∧ getBlockDetailsByNumberValidate s mt
          = getBlockDetailsByNumberValidate { s with privateKey := k } mt2
      ∧ getBatchInfoValidate s mt = getBatchInfoValidate { s with privateKey := k } mt2) := by
  cases hA : truthyStr s.alchemyApiKey <;> cases hB : truthyStr s.zkevmRpcUrl <;>
    simp_all [getGasPriceValidate, getStorageAtValidate, getTransactionReceiptValidate,
      getBlockDetailsByNumberValidate, getBatchInfoValidate]

/-! ## C2 — missing-configuration behaviour -/

/-- **C2** is refuted by the transaction-receipt handler: invoked with
neither `ALCHEMY_API_KEY` nor `ZKEVM_RPC_URL` present, it does not return
the missing-configuration failure — it issues the RPC request anyway, to the
hard-coded default public URL, and returns success when the provider answers. -/
theorem claim2_counterexample :
    (getTransactionReceiptHandler settingsNone receiptEnvFound true sampleMsg).result.map
        ActionResult.success = .ok true
      ∧ Event.rpc "eth_getTransactionReceipt" defaultPublicRpc [sampleHash]
          ∈ (getTransactionReceiptHandler settingsNone receiptEnvFound true sampleMsg).events :=
  ⟨by decide, by decide⟩

/-- **C2 (amended).** The four handlers carrying the configuration guard
(gas-price, storage, block-details, batch-info) behave as the claim states:
with both settings absent they return a `success = false` result whose text
contains the configuration message, carry an `Error` value, invoke a
supplied callback with that message and `success: false` content, and issue
no RPC call.  The transaction-receipt handler is excluded: it has no such
guard (see the counterexample). -/
theorem claim2_amended (s : Settings) (cb : Bool)
    (hA : truthyStr s.alchemyApiKey = false) (hR : truthyStr s.zkevmRpcUrl = false)
    (envG : GasEnv) (envS : StorageEnv) (envB : BlockEnv) (envT : BatchEnv) :
    configFailureBehavior (getGasPriceHandler s envG cb) cb
    ∧ configFailureBehavior (getStorageAtHandler s envS cb) cb
    ∧ configFailureBehavior (getBlockDetailsByNumberHandler s envB cb) cb
    ∧ configFailureBehavior (getBatchInfoHandler s envT cb) cb := by
  have hg := guard_of_absent hA hR
  refine ⟨?_, ?_, ?_, ?_⟩
  · refine ⟨gasFailResult configErrorMessage, ?_, rfl, ?_, rfl, ?_, ?_⟩
    · simp [getGasPriceHandler, hg]
    · exact containsSub_left "❌ " configErrorMessage
    · intro hcb; subst hcb; simp [getGasPriceHandler, hg]
    · cases cb <;> simp [getGasPriceHandler, hg, noRpc, isRpcEvent]
  · refine ⟨storageFailResult configErrorMessage, ?_, rfl, ?_, rfl, ?_, ?_⟩
    · simp [getStorageAtHandler, hg]
    · exact containsSub_left "❌ " configErrorMessage
    · intro hcb; subst hcb; simp [getStorageAtHandler, hg]
    · cases cb <;> simp [getStorageAtHandler, hg, noRpc, isRpcEvent]
  · refine ⟨blockFailResult configErrorMessage, ?_, rfl, ?_, rfl, ?_, ?_⟩
    · simp [getBlockDetailsByNumberHandler, hg]
    · exact containsSub_left "❌ " configErrorMessage
    · intro hcb; subst hcb; simp [getBlockDetailsByNumberHandler, hg]
    · cases cb <;> simp [getBlockDetailsByNumberHandler, hg, noRpc, isRpcEvent]
  · refine ⟨batchFailResult configErrorMessage, ?_, rfl, ?_, rfl, ?_, ?_⟩
    · simp [getBatchInfoHandler, hg]
    · exact containsSub_mid batchCrossMark " " configErrorMessage
    · intro hcb; subst hcb; simp [getBatchInfoHandler, hg]
    · cases cb <;> simp [getBatchInfoHandler, hg, noRpc, isRpcEvent]

/-- Witness for the amended C2 at concrete inputs. -/
theorem claim2_amended_witness :
    configFailureBehavior (getGasPriceHandler settingsNone gasEnv0 true) true
    ∧ configFailureBehavior (getStorageAtHandler settingsNone storageEnv0 true) true
    ∧ configFailureBehavior (getBlockDetailsByNumberHandler settingsNone blockEnv0 true) true
    ∧ configFailureBehavior (getBatchInfoHandler settingsNone batchEnv0 true) true :=
  claim2_amended settingsNone true rfl rfl gasEnv0 storageEnv0 blockEnv0 batchEnv0

/-! ## C10 — result-shape invariant -/

theorem failureShape_gasFail (m : String) :
    failureShape (gasFailResult m) gasActionName "❌ " :=
  ⟨rfl, fun _ => ⟨⟨m, rfl⟩, rfl, rfl, rfl⟩⟩

theorem failureShape_storageFail (m : String) :
    failureShape (storageFailResult m) storageActionName "❌ " :=
  ⟨rfl, fun _ => ⟨⟨m, rfl⟩, rfl, rfl, rfl⟩⟩

theorem failureShape_receiptFail (m : String) :
    failureShape (receiptFailResult m) receiptActionName "❌ " :=
  ⟨rfl, fun _ => ⟨⟨m, rfl⟩, rfl, rfl, rfl⟩⟩

theorem failureShape_blockFail (m : String) :
    failureShape (blockFailResult m) blockActionName "❌ " :=
  ⟨rfl, fun _ => ⟨⟨m, rfl⟩, rfl, rfl, rfl⟩⟩

theorem failureShape_batchFail (m : String) :
    failureShape (batchFailResult m) batchActionName (batchCrossMark ++ " ") :=
  ⟨rfl, fun _ => ⟨⟨m, (String.append_assoc batchCrossMark " " m).symm⟩, rfl, rfl, rfl⟩⟩

theorem failureShape_of_success {res : ActionResult} {name pre : String}
    (hn : res.dataActionName = name) (hs : res.success = true) :
    failureShape res name pre :=
  ⟨hn, fun hf => by rw [hf] at hs; exact absurd hs (by decide)⟩

/-- **C10** is refuted by the batch-info handler: its failure texts are
prefixed with the mojibake character sequence (the bytes of `❌` mis-decoded
in the source file), not with `❌`. -/
theorem claim10_counterexample :
    (getBatchInfoHandler settingsNone batchEnv0 true).result
        = .ok (batchFailResult configErrorMessage)
      ∧ (batchFailResult configErrorMessage).success = false
      ∧ (batchFailResult configErrorMessage).text
          = batchCrossMark ++ " " ++ configErrorMessage
      ∧ (batchFailResult configErrorMessage).text.data.head? = some '\u201A'
      ∧ "❌".data.head? = some '\u274C' :=
  ⟨by decide, by decide, rfl, by decide, by decide⟩

/-- **C10 (amended).** Result-shape invariant: every failure result returned
by a handler has `values.error = true` with an error message, `data.actionName`
equal to the action name constant, a non-null error value, and a text
prefixed with `❌` — except the batch-info handler, whose failure texts are
prefixed with the mojibake sequence its source file contains instead of `❌`;
every success result carries the same `data.actionName`. -/
theorem claim10_amended (s : Settings) (cb : Bool) (mt : String)
    (envG : GasEnv) (envS : StorageEnv) (envR : ReceiptEnv) (envB : BlockEnv)
    (envT : BatchEnv) :
    (∀ res, (getGasPriceHandler s envG cb).result = .ok res →
        failureShape res gasActionName "❌ ")
    ∧ (∀ res, (getStorageAtHandler s envS cb).result = .ok res →
        failureShape res storageActionName "❌ ")
    ∧ (∀ res, (getTransactionReceiptHandler s envR cb mt).result = .ok res →
        failureShape res receiptActionName "❌ ")
    ∧ (∀ res, (getBlockDetailsByNumberHandler s envB cb).result = .ok res →
        failureShape res blockActionName "❌ ")
    ∧ (∀ res, (getBatchInfoHandler s envT cb).result = .ok res →
        failureShape res batchActionName (batchCrossMark ++ " ")) := by
  refine ⟨?_, ?_, ?_, ?_, ?_⟩
  · intro res h
    rcases envG with ⟨llm, egp, fd⟩
    cases hg : (!(truthyStr s.alchemyApiKey) && !(truthyStr s.zkevmRpcUrl)) with
    | true =>
        simp [getGasPriceHandler, hg] at h
        subst h; exact failureShape_gasFail _
    | false =>
        cases egp with
        | error e =>
            simp [getGasPriceHandler, hg] at h
            subst h; exact failureShape_gasFail _
        | ok wei =>
            simp [getGasPriceHandler, hg] at h
            subst h; exact failureShape_of_success rfl rfl
  · intro res h
    rcases envS with ⟨llm, gs⟩
    cases hg : (!(truthyStr s.alchemyApiKey) && !(truthyStr s.zkevmRpcUrl)) with
    | true =>
        simp [getStorageAtHandler, hg] at h
        subst h; exact failureShape_storageFail _
    | false =>
        cases llm with
        | throws m =>
            simp [getStorageAtHandler, hg] at h
            subst h; exact failureShape_storageFail _
        | ok v =>
            by_cases he : truthyStr v.error = true
            · simp [getStorageAtHandler, hg, he] at h
              subst h; exact failureShape_storageFail _
            · rw [Bool.not_eq_true] at he
              by_cases hap : (!(truthyOpt v.address) || !(truthyOpt v.position)) = true
              · simp [getStorageAtHandler, hg, he, hap] at h
                subst h; exact failureShape_storageFail _
              · rw [Bool.not_eq_true] at hap
                cases gs with
                | error e => simp [getStorageAtHandler, hg, he, hap] at h
                | ok sv =>
                    cases hsi : storageInterp sv with
                    | error e2 => simp [getStorageAtHandler, hg, he, hap, hsi] at h
                    | ok interp =>
                        simp [getStorageAtHandler, hg, he, hap, hsi] at h
                        subst h; exact failureShape_of_success rfl rfl
  · intro res h
    rcases envR with ⟨rc⟩
    cases hm : firstTxHash mt.toList with
    | none =>
        simp only [String.toList] at hm
        cases cb with
        | true =>
            simp [getTransactionReceiptHandler, hm] at h
            subst h; exact failureShape_receiptFail _
        | false => simp [getTransactionReceiptHandler, receiptCatch, hm] at h
    | some txh =>
        simp only [String.toList] at hm
        cases rc with
        | error e =>
            cases cb with
            | true =>
                simp [getTransactionReceiptHandler, receiptCatch, hm] at h
                subst h; exact failureShape_receiptFail _
            | false => simp [getTransactionReceiptHandler, receiptCatch, hm] at h
        | ok orc =>
            cases orc with
            | none =>
                cases cb with
                | true =>
                    simp [getTransactionReceiptHandler, hm] at h
                    subst h; exact failureShape_receiptFail _
                | false => simp [getTransactionReceiptHandler, receiptCatch, hm] at h
            | some r =>
                cases cb with
                | true =>
                    simp [getTransactionReceiptHandler, hm] at h
                    subst h; exact failureShape_of_success rfl rfl
                | false => simp [getTransactionReceiptHandler, receiptCatch, hm] at h
  · intro res h
    rcases envB with ⟨llm, al, rg⟩
    cases hg : (!(truthyStr s.alchemyApiKey) && !(truthyStr s.zkevmRpcUrl)) with
    | true =>
        simp [getBlockDetailsByNumberHandler, hg] at h
        subst h; exact failureShape_blockFail _
    | false =>
        cases llm with
        | throws m =>
            simp [getBlockDetailsByNumberHandler, hg] at h
            subst h; exact failureShape_blockFail _
        | ok v =>
            by_cases he : truthyStr v.error = true
            · simp [getBlockDetailsByNumberHandler, hg, he] at h
              subst h; exact failureShape_blockFail _
            · rw [Bool.not_eq_true] at he
              by_cases hbn : (!(truthyOpt v.blockNumber) || !(isNumOpt v.blockNumber)) = true
              · simp [getBlockDetailsByNumberHandler, hg, he, hbn] at h
                subst h; exact failureShape_blockFail _
              · rw [Bool.not_eq_true] at hbn
                cases hA : truthyStr s.alchemyApiKey <;>
                  cases hR2 : truthyStr s.zkevmRpcUrl <;>
                  rcases al with m1 | ob <;>
                  rcases rg with m2 | orb <;>
                  (try rcases ob with _ | b1) <;>
                  (try rcases orb with _ | b2) <;>
                  simp [getBlockDetailsByNumberHandler, hg, he, hbn, hA, hR2] at h <;>
                  first
                    | (subst h; exact failureShape_of_success rfl rfl)
                    | (subst h; refine ⟨rfl, fun _ => ⟨⟨_, rfl⟩, rfl, rfl, rfl⟩⟩)
  · intro res h
    rcases envT with ⟨llm, g1, g2, now⟩
    cases hg : (!(truthyStr s.alchemyApiKey) && !(truthyStr s.zkevmRpcUrl)) with
    | true =>
        simp [getBatchInfoHandler, hg] at h
        subst h; exact failureShape_batchFail _
    | false =>
        cases llm with
        | throws m =>
            simp [getBatchInfoHandler, hg] at h
            subst h; exact failureShape_batchFail _
        | ok v =>
            by_cases he : truthyStr v.error = true
            · simp [getBatchInfoHandler, hg, he] at h
              subst h; exact failureShape_batchFail _
            · rw [Bool.not_eq_true] at he
              by_cases hb : (!(truthyOpt v.batchNumber) || !(isNumOpt v.batchNumber)) = true
              · simp [getBatchInfoHandler, hg, he, hb] at h
                subst h; exact failureShape_batchFail _
              · rw [Bool.not_eq_true] at hb
                rcases g1 with m1 | od1 <;>
                  (try rcases od1 with _ | d1) <;>
                  (try rcases g2 with m2 | od2) <;>
                  (try rcases od2 with _ | d2) <;>
                  simp [getBatchInfoHandler, hg, he, hb] at h <;>
                  first
                    | (subst h; exact failureShape_of_success rfl rfl)
                    | (subst h;
                       exact ⟨rfl, fun _ =>
                        ⟨⟨_, (String.append_assoc batchCrossMark " " _).symm⟩, rfl, rfl, rfl⟩⟩)

/-- Witness for the amended C10 at concrete inputs. -/
theorem claim10_amended_witness :
    failureShape (gasFailResult configErrorMessage) gasActionName "❌ " :=
  (claim10_amended settingsNone true "" gasEnv0 storageEnv0 receiptEnvFound blockEnv0
      batchEnv0).1 (gasFailResult configErrorMessage) (by decide)

/-! ## C9 — zero-valued extractions rejected -/

/-- **C9.** Zero-valued extracted parameters are rejected before any RPC
call: the storage handler fails extraction when the extracted position is the
number `0` (and when the address is the empty string), the block-details
handler answers `Invalid block number extracted from input` for block number
`0`, and the batch handler rejects batch number `0`; in each case no RPC
request is issued. -/
theorem claim9_zero_rejected (s : Settings) (cb : Bool)
    (hconf : (!(truthyStr s.alchemyApiKey) && !(truthyStr s.zkevmRpcUrl)) = false)
    (envS : StorageEnv) (envB : BlockEnv) (envT : BatchEnv)
    (vS : StorageLLMOut) (vB : BlockLLMOut) (vT : BatchLLMOut) :
    (envS.llm = .ok vS → truthyStr vS.error = false → vS.position = some (.num 0) →
      (getStorageAtHandler s envS cb).result
          = .ok (storageFailResult
              (storageExtractFailMsg "Invalid storage parameters received from LLM."))
        ∧ noRpc (getStorageAtHandler s envS cb))
    ∧ (envS.llm = .ok vS → truthyStr vS.error = false → vS.address = some (.str "") →
      (getStorageAtHandler s envS cb).result
          = .ok (storageFailResult
              (storageExtractFailMsg "Invalid storage parameters received from LLM."))
        ∧ noRpc (getStorageAtHandler s envS cb))
    ∧ (envB.llm = .ok vB → truthyStr vB.error = false → vB.blockNumber = some (.num 0) →
      (getBlockDetailsByNumberHandler s envB cb).result
          = .ok (blockFailResult "Invalid block number extracted from input")
        ∧ noRpc (getBlockDetailsByNumberHandler s envB cb))
    ∧ (envT.llm = .ok vT → truthyStr vT.error = false → vT.batchNumber = some (.num 0) →
      (getBatchInfoHandler s envT cb).result
          = .ok (batchFailResult
              (batchExtractFailMsg "Invalid batch number received from LLM."))
        ∧ noRpc (getBatchInfoHandler s envT cb)) := by
  refine ⟨?_, ?_, ?_, ?_⟩
  · intro hl he hp
    constructor
    · simp [getStorageAtHandler, hconf, hl, he, hp, truthyOpt, JsVal.truthy]
    · cases cb <;>
        simp [getStorageAtHandler, hconf, hl, he, hp, truthyOpt, JsVal.truthy, noRpc,
          isRpcEvent]
  · intro hl he ha
    constructor
    · simp [getStorageAtHandler, hconf, hl, he, ha, truthyOpt, JsVal.truthy]
    · cases cb <;>
        simp [getStorageAtHandler, hconf, hl, he, ha, truthyOpt, JsVal.truthy, noRpc,
          isRpcEvent]
  · intro hl he hb
    constructor
    · simp [getBlockDetailsByNumberHandler, hconf, hl, he, hb, truthyOpt, JsVal.truthy]
    · cases cb <;>
        simp [getBlockDetailsByNumberHandler, hconf, hl, he, hb, truthyOpt, JsVal.truthy,
          noRpc, isRpcEvent]
  · intro hl he hb
    constructor
    · simp [getBatchInfoHandler, hconf, hl, he, hb, truthyOpt, JsVal.truthy]
    · cases cb <;>
        simp [getBatchInfoHandler, hconf, hl, he, hb, truthyOpt, JsVal.truthy, noRpc,
          isRpcEvent]

/-- Witness for C9 at concrete inputs. -/
theorem claim9_witness :
    ((getStorageAtHandler settingsRpc storageEnvZero true).result
        = .ok (storageFailResult
            (storageExtractFailMsg "Invalid storage parameters received from LLM."))
      ∧ noRpc (getStorageAtHandler settingsRpc storageEnvZero true))
    ∧ ((getBlockDetailsByNumberHandler settingsRpc blockEnvZero true).result
        = .ok (blockFailResult "Invalid block number extracted from input")
      ∧ noRpc (getBlockDetailsByNumberHandler settingsRpc blockEnvZero true))
    ∧ ((getBatchInfoHandler settingsRpc batchEnvZero true).result
        = .ok (batchFailResult
            (batchExtractFailMsg "Invalid batch number received from LLM."))
      ∧ noRpc (getBatchInfoHandler settingsRpc batchEnvZero true)) :=
  ⟨(claim9_zero_rejected settingsRpc true (by decide) storageEnvZero blockEnvZero
      batchEnvZero storageLLMZero blockLLMZero batchLLMZero).1 rfl rfl rfl,
   (claim9_zero_rejected settingsRpc true (by decide) storageEnvZero blockEnvZero
      batchEnvZero storageLLMZero blockLLMZero batchLLMZero).2.2.1 rfl rfl rfl,
   (claim9_zero_rejected settingsRpc true (by decide) storageEnvZero blockEnvZero
      batchEnvZero storageLLMZero blockLLMZero batchLLMZero).2.2.2 rfl rfl rfl⟩

/-! ## C1 — provider-call failures -/

/-- **C1** is refuted by the storage handler: when `provider.getStorage`
throws, the exception escapes the handler (the returned promise rejects)
instead of being surfaced as a failure result. -/
theorem claim1_counterexample :
    (getStorageAtHandler settingsRpc storageEnvThrow true).result
      = .error "network down" := by
  decide

/-- **C1 (amended).** A provider-call failure is surfaced as a structured
`success = false` result with a human-readable error message by the
gas-price, transaction-receipt, block-details and batch-info handlers (the
first two include the thrown message in the text; the block-details failure
carries both per-provider messages; the batch handler reports its generic
unavailability message); the `getStorageAt` handler instead lets the
`provider.getStorage` exception escape the handler. -/
theorem claim1_amended (s : Settings) (cb : Bool) (mt : String) (e e2 : String)
    (envG : GasEnv) (envR : ReceiptEnv) (envB : BlockEnv) (envT : BatchEnv)
    (envS : StorageEnv) (vB : BlockLLMOut) (vT : BatchLLMOut) (vS : StorageLLMOut)
    (n : Int) (hsh : String)
    (hconf : (!(truthyStr s.alchemyApiKey) && !(truthyStr s.zkevmRpcUrl)) = false) :
    (envG.ethGasPrice = .error e →
      (getGasPriceHandler s envG cb).result
          = .ok (gasFailResult ("Failed to retrieve gas price: " ++ e))
        ∧ containsSub (gasFailResult ("Failed to retrieve gas price: " ++ e)).text e)
    ∧ (firstTxHash mt.toList = some hsh → envR.getTransactionReceipt = .error e →
      (getTransactionReceiptHandler s envR true mt).result
          = .ok (receiptFailResult ("Error getting transaction receipt: " ++ e))
        ∧ containsSub
            (receiptFailResult ("Error getting transaction receipt: " ++ e)).text e)
    ∧ (truthyStr s.alchemyApiKey = true → truthyStr s.zkevmRpcUrl = true →
       envB.llm = .ok vB → truthyStr vB.error = false →
       vB.blockNumber = some (.num n) → n ≠ 0 →
       envB.alchemy = .throws e → envB.rpcGetBlock = .error e2 →
      (getBlockDetailsByNumberHandler s envB cb).result
          = .ok (blockBothFailResult n
              ["Alchemy API failed: " ++ e, "JSON-RPC fallback failed: " ++ e2]))
    ∧ (envT.llm = .ok vT → truthyStr vT.error = false →
       vT.batchNumber = some (.num n) → n ≠ 0 →
       envT.getBatchByNumber = .error e → envT.getBatch = .error e2 →
      (getBatchInfoHandler s envT cb).result
          = .ok (batchNotFoundResult n
              ["Failed to get batch info: Batch information not available via RPC methods"]))
    ∧ (envS.llm = .ok vS → truthyStr vS.error = false →
       truthyOpt vS.address = true → truthyOpt vS.position = true →
       envS.getStorage = .error e →
      (getStorageAtHandler s envS cb).result = .error e) := by
  refine ⟨?_, ?_, ?_, ?_, ?_⟩
  · intro hg
    refine ⟨?_, containsSub_mid "❌ " "Failed to retrieve gas price: " e⟩
    simp [getGasPriceHandler, hconf, hg]
  · intro hm hr
    simp only [String.toList] at hm
    refine ⟨?_, containsSub_mid "❌ " "Error getting transaction receipt: " e⟩
    simp [getTransactionReceiptHandler, receiptCatch, hm, hr]
  · intro hA hR hl he hbn hn ha hr
    simp [getBlockDetailsByNumberHandler, hconf, hA, hR, hl, he, hbn, hn, ha, hr,
      truthyOpt, JsVal.truthy, isNumOpt]
  · intro hl he hb hn h1 h2
    simp [getBatchInfoHandler, hconf, hl, he, hb, hn, h1, h2, truthyOpt, JsVal.truthy,
      isNumOpt]
  · intro hl he ha hp hs
    simp [getStorageAtHandler, hconf, hl, he, ha, hp, hs]

/-- Witness for the amended C1 at concrete inputs. -/
theorem claim1_amended_witness :
    ((getGasPriceHandler settingsRpc gasEnvRpcFail true).result
        = .ok (gasFailResult ("Failed to retrieve gas price: " ++ "gas down"))
      ∧ containsSub
          (gasFailResult ("Failed to retrieve gas price: " ++ "gas down")).text "gas down")
    ∧ (getStorageAtHandler settingsRpc storageEnvThrow true).result
        = .error "network down" :=
  ⟨(claim1_amended settingsRpc true sampleMsg "gas down" "x" gasEnvRpcFail
      receiptEnvThrow blockEnvBothFail batchEnvBothFail storageEnvThrow blockLLM5
      batchLLM7 storageLLM0 5 sampleHash (by decide)).1 rfl,
   (claim1_amended settingsRpc true sampleMsg "network down" "x" gasEnvRpcFail
      receiptEnvThrow blockEnvBothFail batchEnvBothFail storageEnvThrow blockLLM5
      batchLLM7 storageLLM0 5 sampleHash (by decide)).2.2.2.2 rfl rfl (by decide)
      (by decide) rfl⟩

/-! ## C8 — not-found reported as failure -/

/-- **C8.** Not-found results are failures: a `null` receipt yields a
`success = false` result with a `Transaction receipt not found` message, and
when both the Alchemy attempt and the JSON-RPC fallback yield no block the
block-details handler returns `success = false` with a message naming the
block number and the accumulated per-provider error messages. -/
theorem claim8_notfound (s : Settings) (cb : Bool) (mt : String) (hsh : String)
    (envR : ReceiptEnv) (envB : BlockEnv) (vB : BlockLLMOut) (n : Int) :
    (firstTxHash mt.toList = some hsh → envR.getTransactionReceipt = .ok none →
      (getTransactionReceiptHandler s envR true mt).result
          = .ok (receiptFailResult
              ("Transaction receipt not found: " ++ hsh
                ++ ". The transaction may be pending or does not exist."))
        ∧ containsSub
            (receiptFailResult
              ("Transaction receipt not found: " ++ hsh
                ++ ". The transaction may be pending or does not exist.")).text
            "Transaction receipt not found: ")
    ∧ (truthyStr s.alchemyApiKey = true → truthyStr s.zkevmRpcUrl = true →
       envB.llm = .ok vB → truthyStr vB.error = false →
       vB.blockNumber = some (.num n) → n ≠ 0 →
       envB.alchemy.block = none → rpcBlockOf envB.rpcGetBlock = none →
      (getBlockDetailsByNumberHandler s envB cb).result
          = .ok (blockBothFailResult n (envB.alchemy.errs ++ rpcErrsOf envB.rpcGetBlock))
        ∧ containsSub
            (blockBothFailResult n
              (envB.alchemy.errs ++ rpcErrsOf envB.rpcGetBlock)).text
            (toString n)) := by
  constructor
  · intro hm hr
    simp only [String.toList] at hm
    constructor
    · simp [getTransactionReceiptHandler, hm, hr]
    · exact ⟨"❌ ", hsh ++ ". The transaction may be pending or does not exist.",
        by simp only [receiptFailResult, String.append_assoc]⟩
  · intro hA hR hl he hbn hn hab hrb
    constructor
    · cases hal : envB.alchemy with
      | throws m1 =>
          cases hrg : envB.rpcGetBlock with
          | error m2 =>
              simp [getBlockDetailsByNumberHandler, hA, hR, hl, he, hbn, hn, hal, hrg,
                truthyOpt, JsVal.truthy, isNumOpt, AlchemyRes.errs, rpcErrsOf]
          | ok orb =>
              rw [hrg] at hrb
              simp only [rpcBlockOf] at hrb
              subst hrb
              simp [getBlockDetailsByNumberHandler, hA, hR, hl, he, hbn, hn, hal, hrg,
                truthyOpt, JsVal.truthy, isNumOpt, AlchemyRes.errs, rpcErrsOf]
      | result ob =>
          rw [hal] at hab
          simp only [AlchemyRes.block] at hab
          subst hab
          cases hrg : envB.rpcGetBlock with
          | error m2 =>
              simp [getBlockDetailsByNumberHandler, hA, hR, hl, he, hbn, hn, hal, hrg,
                truthyOpt, JsVal.truthy, isNumOpt, AlchemyRes.errs, rpcErrsOf]
          | ok orb =>
              rw [hrg] at hrb
              simp only [rpcBlockOf] at hrb
              subst hrb
              simp [getBlockDetailsByNumberHandler, hA, hR, hl, he, hbn, hn, hal, hrg,
                truthyOpt, JsVal.truthy, isNumOpt, AlchemyRes.errs, rpcErrsOf]
    · exact ⟨"❌ " ++ "Failed to retrieve details for Polygon zkEVM block ",
        " using both Alchemy and RPC. Errors: "
          ++ String.intercalate "; " (envB.alchemy.errs ++ rpcErrsOf envB.rpcGetBlock)
          ++ ". It\x27s possible the block number is invalid or the block does not exist yet.",
        by simp only [blockBothFailResult, blockBothFailedMsg, String.append_assoc]⟩

/-- Witness for C8 at concrete inputs. -/
theorem claim8_notfound_witness :
    ((getTransactionReceiptHandler settingsRpc receiptEnvMissing true sampleMsg).result
        = .ok (receiptFailResult
            ("Transaction receipt not found: " ++ sampleHash
              ++ ". The transaction may be pending or does not exist."))
      ∧ containsSub
          (receiptFailResult
            ("Transaction receipt not found: " ++ sampleHash
              ++ ". The transaction may be pending or does not exist.")).text
          "Transaction receipt not found: ")
    ∧ ((getBlockDetailsByNumberHandler settingsBoth blockEnvBothFail true).result
        = .ok (blockBothFailResult 5
            (blockEnvBothFail.alchemy.errs ++ rpcErrsOf blockEnvBothFail.rpcGetBlock))
      ∧ containsSub
          (blockBothFailResult 5
            (blockEnvBothFail.alchemy.errs ++ rpcErrsOf blockEnvBothFail.rpcGetBlock)).text
          (toString (5 : Int))) :=
  ⟨(claim8_notfound settingsRpc true sampleMsg sampleHash receiptEnvMissing
      blockEnvBothFail blockLLM5 5).1 (by decide) rfl,
   (claim8_notfound settingsBoth true sampleMsg sampleHash receiptEnvMissing
      blockEnvBothFail blockLLM5 5).2 (by decide) (by decide) rfl rfl rfl (by decide)
      rfl rfl⟩

/-! ## C3 — the transaction-receipt contract -/

theorem matchHashAt_sound {l m : List Char} (h : matchHashAt l = some m) :
    isHashChars m = true ∧ ∃ b, l = m ++ b := by
  match l with
  | [] => simp [matchHashAt] at h
  | [c] => simp [matchHashAt] at h
  | c1 :: c2 :: rest =>
      simp only [matchHashAt] at h
      split at h
      · rename_i hc
        obtain ⟨h0, hx, hlen, hall⟩ := hc
        injection h with h
        subst h0; subst hx
        constructor
        · rw [← h]; simp [isHashChars, hlen, hall]
        · exact ⟨rest.drop 64, by rw [← h]; simp [List.take_append_drop]⟩
      · simp at h

theorem matchHashAt_complete {h : List Char} (hh : isHashChars h = true)
    (b : List Char) : matchHashAt (h ++ b) = some h := by
  match h with
  | [] => simp [isHashChars] at hh
  | [c] => simp [isHashChars] at hh
  | c1 :: c2 :: ds =>
      simp only [isHashChars, Bool.and_eq_true, beq_iff_eq] at hh
      obtain ⟨⟨h0, hx⟩, hlen, hall⟩ := hh
      subst h0; subst hx
      simp only [List.cons_append, matchHashAt]
      rw [List.take_left' hlen]
      simp [hlen, hall]

theorem firstTxHash_isSome_iff {l : List Char} :
    (firstTxHash l).isSome = true
      ↔ ∃ a h b, l = a ++ h ++ b ∧ isHashChars h = true := by
  induction l with
  | nil =>
      constructor
      · intro hs; simp [firstTxHash] at hs
      · rintro ⟨a, h, b, hab, hh⟩
        rw [eq_comm, List.append_eq_nil, List.append_eq_nil] at hab
        obtain ⟨⟨ha, hhn⟩, hb⟩ := hab
        subst hhn
        simp [isHashChars] at hh
  | cons c rest ih =>
      constructor
      · intro hs
        cases hm : matchHashAt (c :: rest) with
        | some m =>
            obtain ⟨hh, b, hb⟩ := matchHashAt_sound hm
            exact ⟨[], m, b, by simpa using hb, hh⟩
        | none =>
            simp only [firstTxHash, hm] at hs
            obtain ⟨a, h, b, hab, hh⟩ := ih.mp hs
            exact ⟨c :: a, h, b, by simp [hab], hh⟩
      · rintro ⟨a, h, b, hab, hh⟩
        cases a with
        | nil =>
            simp only [List.nil_append] at hab
            have hmc : matchHashAt (c :: rest) = some h := by
              rw [hab]; exact matchHashAt_complete hh b
            simp [firstTxHash, hmc]
        | cons x xs =>
            simp only [List.cons_append] at hab
            injection hab with h1 h2
            have hrec := ih.mpr ⟨xs, h, b, h2, hh⟩
            cases hm : matchHashAt (c :: rest) with
            | some m => simp [firstTxHash, hm]
            | none => simpa [firstTxHash, hm] using hrec

theorem noHash_of_firstTxHash_none {l : List Char} (hnone : firstTxHash l = none) :
    ∀ a h b, l = a ++ h ++ b → isHashChars h = false := by
  intro a h b hab
  by_contra hc
  rw [Bool.not_eq_false] at hc
  have hs : (firstTxHash l).isSome = true :=
    firstTxHash_isSome_iff.mpr ⟨a, h, b, hab, hc⟩
  rw [hnone] at hs
  simp at hs

/-- **C3.** The transaction-receipt handler contract (callback supplied):
for a message whose text contains a 0x-prefixed 64-hex-character hash, the
handler requests the receipt of the first such hash, and when the provider
returns a receipt it answers `success = true` with a formatted status line
that reads `✅ Success` exactly when `receipt.status = 1` and `❌ Failed`
otherwise; for a message containing no such hash it returns `success = false`
asking for a valid transaction hash, without calling the provider. -/
theorem claim3_receipt_contract (s : Settings) (mt : String) (env : ReceiptEnv) :
    (∀ hsh r, firstTxHash mt.toList = some hsh →
       env.getTransactionReceipt = .ok (some r) →
       ∃ res, (getTransactionReceiptHandler s env true mt).result = .ok res
         ∧ res.success = true
         ∧ res.text = receiptTextBefore hsh r ++ receiptStatusStr r.status
             ++ receiptTextAfter r
         ∧ (receiptStatusStr r.status = "✅ Success" ↔ r.status = 1)
         ∧ (receiptStatusStr r.status = "❌ Failed" ↔ r.status ≠ 1)
         ∧ Event.rpc "eth_getTransactionReceipt" (receiptProviderUrl s) [hsh]
             ∈ (getTransactionReceiptHandler s env true mt).events)
    ∧ ((∀ a h b, mt.toList = a ++ h ++ b → isHashChars h = false) →
       (getTransactionReceiptHandler s env true mt).result
           = .ok (receiptFailResult noHashText)
         ∧ noRpc (getTransactionReceiptHandler s env true mt)) := by
  constructor
  · intro hsh r hm hr
    simp only [String.toList] at hm
    refine ⟨receiptSuccessResult hsh r, ?_, rfl, rfl, ?_, ?_, ?_⟩
    · simp [getTransactionReceiptHandler, hm, hr]
    · by_cases hst : r.status = 1 <;> simp [receiptStatusStr, hst]
    · by_cases hst : r.status = 1 <;> simp [receiptStatusStr, hst]
    · simp [getTransactionReceiptHandler, hm, hr]
  · intro hno
    have hm : firstTxHash mt.toList = none := by
      cases hm2 : firstTxHash mt.toList with
      | none => rfl
      | some m =>
          have hs : (firstTxHash mt.toList).isSome = true := by rw [hm2]; rfl
          obtain ⟨a, h, b, hab, hh⟩ := firstTxHash_isSome_iff.mp hs
          exact absurd hh (by simp [hno a h b hab])
    simp only [String.toList] at hm
    constructor
    · simp [getTransactionReceiptHandler, hm]
    · simp [getTransactionReceiptHandler, hm, noRpc, isRpcEvent]

/-- Witness for C3 at concrete inputs. -/
theorem claim3_witness :
    (∃ res,
        (getTransactionReceiptHandler settingsRpc receiptEnvFound true sampleMsg).result
          = .ok res
        ∧ res.success = true
        ∧ res.text = receiptTextBefore sampleHash sampleReceipt
            ++ receiptStatusStr sampleReceipt.status ++ receiptTextAfter sampleReceipt
        ∧ (receiptStatusStr sampleReceipt.status = "✅ Success"
            ↔ sampleReceipt.status = 1)
        ∧ (receiptStatusStr sampleReceipt.status = "❌ Failed"
            ↔ sampleReceipt.status ≠ 1)
        ∧ Event.rpc "eth_getTransactionReceipt" (receiptProviderUrl settingsRpc)
              [sampleHash]
            ∈ (getTransactionReceiptHandler settingsRpc receiptEnvFound true
                sampleMsg).events)
    ∧ ((getTransactionReceiptHandler settingsRpc receiptEnvFound true
            "no hash here").result
          = .ok (receiptFailResult noHashText)
        ∧ noRpc (getTransactionReceiptHandler settingsRpc receiptEnvFound true
            "no hash here")) :=
  ⟨(claim3_receipt_contract settingsRpc sampleMsg receiptEnvFound).1 sampleHash
      sampleReceipt (by decide) rfl,
   (claim3_receipt_contract settingsRpc "no hash here" receiptEnvFound).2
      (noHash_of_firstTxHash_none (by decide))⟩

/-! ## C4 — LLM-extraction failures -/

/-- **C4** is refuted by the gas-price handler: its LLM validation step
failing (here: the model call throwing) is swallowed — the handler proceeds
to the RPC call and returns success. -/
theorem claim4_counterexample :
    (getGasPriceHandler settingsRpc gasEnvLLMFail false).result.map ActionResult.success
        = .ok true
      ∧ Event.rpc "eth_gasPrice" "https://rpc.example" []
          ∈ (getGasPriceHandler settingsRpc gasEnvLLMFail false).events :=
  ⟨by decide, by decide⟩

/-- **C4 (amended).** An LLM-extraction failure (the model call throwing, or
the model returning an object with an `error` field) is surfaced as a
`success = false` failure result, with no subsequent RPC call, by the
storage, block-details and batch-info handlers; the gas-price handler
swallows its LLM validation failure and proceeds to the RPC call
regardless. -/
theorem claim4_amended (s : Settings) (cb : Bool) (m : String)
    (envG : GasEnv) (envS : StorageEnv) (envB : BlockEnv) (envT : BatchEnv)
    (vS : StorageLLMOut) (vB : BlockLLMOut) (vT : BatchLLMOut)
    (hconf : (!(truthyStr s.alchemyApiKey) && !(truthyStr s.zkevmRpcUrl)) = false) :
    (envS.llm = .throws m →
      (getStorageAtHandler s envS cb).result
          = .ok (storageFailResult (storageExtractFailMsg m))
        ∧ noRpc (getStorageAtHandler s envS cb))
    ∧ (envS.llm = .ok vS → truthyStr vS.error = true →
      (getStorageAtHandler s envS cb).result
          = .ok (storageFailResult (storageExtractFailMsg (vS.error.getD "")))
        ∧ noRpc (getStorageAtHandler s envS cb))
    ∧ (envB.llm = .throws m →
      (getBlockDetailsByNumberHandler s envB cb).result
          = .ok (blockFailResult "[getBlockDetailsByNumberAction] OBJECT_LARGE model failed")
        ∧ noRpc (getBlockDetailsByNumberHandler s envB cb))
    ∧ (envB.llm = .ok vB → truthyStr vB.error = true →
      (getBlockDetailsByNumberHandler s envB cb).result
          = .ok (blockFailResult "[getBlockDetailsByNumberAction] OBJECT_LARGE model failed")
        ∧ noRpc (getBlockDetailsByNumberHandler s envB cb))
    ∧ (envT.llm = .throws m →
      (getBatchInfoHandler s envT cb).result
          = .ok (batchFailResult (batchExtractFailMsg m))
        ∧ noRpc (getBatchInfoHandler s envT cb))
    ∧ (envT.llm = .ok vT → truthyStr vT.error = true →
      (getBatchInfoHandler s envT cb).result
          = .ok (batchFailResult (batchExtractFailMsg (vT.error.getD "")))
        ∧ noRpc (getBatchInfoHandler s envT cb))
    ∧ (envG.llm = .throws m →
      Event.rpc "eth_gasPrice" (selectProvider s).1 []
        ∈ (getGasPriceHandler s envG cb).events) := by
  refine ⟨?_, ?_, ?_, ?_, ?_, ?_, ?_⟩
  · intro hl
    exact ⟨by simp [getStorageAtHandler, hconf, hl],
      by cases cb <;> simp [getStorageAtHandler, hconf, hl, noRpc, isRpcEvent]⟩
  · intro hl he
    exact ⟨by simp [getStorageAtHandler, hconf, hl, he],
      by cases cb <;> simp [getStorageAtHandler, hconf, hl, he, noRpc, isRpcEvent]⟩
  · intro hl
    exact ⟨by simp [getBlockDetailsByNumberHandler, hconf, hl],
      by cases cb <;>
        simp [getBlockDetailsByNumberHandler, hconf, hl, noRpc, isRpcEvent]⟩
  · intro hl he
    exact ⟨by simp [getBlockDetailsByNumberHandler, hconf, hl, he],
      by cases cb <;>
        simp [getBlockDetailsByNumberHandler, hconf, hl, he, noRpc, isRpcEvent]⟩
  · intro hl
    exact ⟨by simp [getBatchInfoHandler, hconf, hl],
      by cases cb <;> simp [getBatchInfoHandler, hconf, hl, noRpc, isRpcEvent]⟩
  · intro hl he
    exact ⟨by simp [getBatchInfoHandler, hconf, hl, he],
      by cases cb <;> simp [getBatchInfoHandler, hconf, hl, he, noRpc, isRpcEvent]⟩
  · intro hl
    cases hegp : envG.ethGasPrice <;> simp [getGasPriceHandler, hconf, hl, hegp]

/-- Witness for the amended C4 at concrete inputs. -/
theorem claim4_amended_witness :
    ((getStorageAtHandler settingsRpc storageEnvLLMThrow true).result
        = .ok (storageFailResult (storageExtractFailMsg "llm down"))
      ∧ noRpc (getStorageAtHandler settingsRpc storageEnvLLMThrow true))
    ∧ Event.rpc "eth_gasPrice" (selectProvider settingsRpc).1 []
        ∈ (getGasPriceHandler settingsRpc gasEnvLLMFail false).events :=
  ⟨(claim4_amended settingsRpc true "llm down" gasEnvLLMFail storageEnvLLMThrow blockEnv0
      batchEnv0 storageLLM0 blockLLM5 batchLLM7 (by decide)).1 rfl,
   (claim4_amended settingsRpc false "llm down" gasEnvLLMFail storageEnvLLMThrow blockEnv0
      batchEnv0 storageLLM0 blockLLM5 batchLLM7 (by decide)).2.2.2.2.2.2 rfl⟩

/-! ## C6 — LLM consultation before the RPC call -/

/-- **C6** is refuted by the transaction-receipt handler: it never calls the
LLM; it extracts the hash with a regex and goes straight to the RPC call. -/
theorem claim6_counterexample :
    ((getTransactionReceiptHandler settingsRpc receiptEnvFound true sampleMsg).events.all
        fun e => e != Event.llm) = true
      ∧ Event.rpc "eth_getTransactionReceipt" "https://rpc.example" [sampleHash]
          ∈ (getTransactionReceiptHandler settingsRpc receiptEnvFound true
              sampleMsg).events :=
  ⟨by decide, by decide⟩

/-- **C6 (amended).** The gas-price, storage, block-details and batch-info
handlers consult the LLM before issuing any RPC request: whenever a run
contains an RPC event, its very first event is the LLM call.  The
transaction-receipt handler never consults the LLM at all. -/
theorem claim6_amended (s : Settings) (cb : Bool) (mt : String)
    (envG : GasEnv) (envS : StorageEnv) (envR : ReceiptEnv) (envB : BlockEnv)
    (envT : BatchEnv) :
    ((∃ nm u p, Event.rpc nm u p ∈ (getGasPriceHandler s envG cb).events) →
      (getGasPriceHandler s envG cb).events.head? = some Event.llm)
    ∧ ((∃ nm u p, Event.rpc nm u p ∈ (getStorageAtHandler s envS cb).events) →
      (getStorageAtHandler s envS cb).events.head? = some Event.llm)
    ∧ ((∃ nm u p, Event.rpc nm u p
          ∈ (getBlockDetailsByNumberHandler s envB cb).events) →
      (getBlockDetailsByNumberHandler s envB cb).events.head? = some Event.llm)
    ∧ ((∃ nm u p, Event.rpc nm u p ∈ (getBatchInfoHandler s envT cb).events) →
      (getBatchInfoHandler s envT cb).events.head? = some Event.llm)
    ∧ Event.llm ∉ (getTransactionReceiptHandler s envR cb mt).events := by
  refine ⟨?_, ?_, ?_, ?_, ?_⟩
  · intro hx
    rcases envG with ⟨llm, egp, fd⟩
    cases hg : (!(truthyStr s.alchemyApiKey) && !(truthyStr s.zkevmRpcUrl)) with
    | true =>
        exfalso; rcases hx with ⟨nm, u, p, hmem⟩
        cases cb <;> simp [getGasPriceHandler, hg] at hmem
    | false => cases egp <;> simp [getGasPriceHandler, hg]
  · intro hx
    rcases envS with ⟨llm, gs⟩
    cases hg : (!(truthyStr s.alchemyApiKey) && !(truthyStr s.zkevmRpcUrl)) with
    | true =>
        exfalso; rcases hx with ⟨nm, u, p, hmem⟩
        cases cb <;> simp [getStorageAtHandler, hg] at hmem
    | false =>
        cases llm with
        | throws m => simp [getStorageAtHandler, hg]
        | ok v =>
            by_cases he : truthyStr v.error = true
            · simp [getStorageAtHandler, hg, he]
            · rw [Bool.not_eq_true] at he
              by_cases hap : (!(truthyOpt v.address) || !(truthyOpt v.position)) = true
              · simp [getStorageAtHandler, hg, he, hap]
              · rw [Bool.not_eq_true] at hap
                cases gs with
                | error e => simp [getStorageAtHandler, hg, he, hap]
                | ok sv =>
                    cases hsi : storageInterp sv <;>
                      simp [getStorageAtHandler, hg, he, hap, hsi]
  · intro hx
    rcases envB with ⟨llm, al, rg⟩
    cases hg : (!(truthyStr s.alchemyApiKey) && !(truthyStr s.zkevmRpcUrl)) with
    | true =>
        exfalso; rcases hx with ⟨nm, u, p, hmem⟩
        cases cb <;> simp [getBlockDetailsByNumberHandler, hg] at hmem
    | false =>
        cases llm with
        | throws m => simp [getBlockDetailsByNumberHandler, hg]
        | ok v =>
            by_cases he : truthyStr v.error = true
            · simp [getBlockDetailsByNumberHandler, hg, he]
            · rw [Bool.not_eq_true] at he
              by_cases hbn : (!(truthyOpt v.blockNumber) || !(isNumOpt v.blockNumber)) = true
              · simp [getBlockDetailsByNumberHandler, hg, he, hbn]
              · rw [Bool.not_eq_true] at hbn
                cases hA : truthyStr s.alchemyApiKey <;>
                  cases hR2 : truthyStr s.zkevmRpcUrl <;>
                  rcases al with m1 | ob <;>
                  rcases rg with m2 | orb <;>
                  (try rcases ob with _ | b1) <;>
                  (try rcases orb with _ | b2) <;>
                  first
                    | (rw [hA, hR2] at hg; exact absurd hg (by decide))
                    | simp [getBlockDetailsByNumberHandler, hg, he, hbn, hA, hR2]
  · intro hx
    rcases envT with ⟨llm, g1, g2, now⟩
    cases hg : (!(truthyStr s.alchemyApiKey) && !(truthyStr s.zkevmRpcUrl)) with
    | true =>
        exfalso; rcases hx with ⟨nm, u, p, hmem⟩
        cases cb <;> simp [getBatchInfoHandler, hg] at hmem
    | false =>
        cases llm with
        | throws m => simp [getBatchInfoHandler, hg]
        | ok v =>
            by_cases he : truthyStr v.error = true
            · simp [getBatchInfoHandler, hg, he]
            · rw [Bool.not_eq_true] at he
              by_cases hb : (!(truthyOpt v.batchNumber) || !(isNumOpt v.batchNumber)) = true
              · simp [getBatchInfoHandler, hg, he, hb]
              · rw [Bool.not_eq_true] at hb
                rcases g1 with m1 | od1 <;>
                  (try rcases od1 with _ | d1) <;>
                  (try rcases g2 with m2 | od2) <;>
                  (try rcases od2 with _ | d2) <;>
                  simp [getBatchInfoHandler, hg, he, hb]
  · rcases envR with ⟨rc⟩
    cases hm : firstTxHash mt.toList with
    | none =>
        simp only [String.toList] at hm
        cases cb <;> simp [getTransactionReceiptHandler, receiptCatch, hm]
    | some txh =>
        simp only [String.toList] at hm
        rcases rc with e | orc <;> (try rcases orc with _ | r) <;>
          cases cb <;> simp [getTransactionReceiptHandler, receiptCatch, hm]

/-- Witness for the amended C6 at concrete inputs. -/
theorem claim6_amended_witness :
    (getGasPriceHandler settingsRpc gasEnv0 true).events.head? = some Event.llm :=
  (claim6_amended settingsRpc true sampleMsg gasEnv0 storageEnv0 receiptEnvFound blockEnv0
      batchEnv0).1 ⟨"eth_gasPrice", "https://rpc.example", [], by decide⟩

/-! ## C5 — provider selection -/

/-- **C5** is refuted by the transaction-receipt handler: with the Alchemy
key present it succeeds but reports no method at all. -/
theorem claim5_counterexample :
    (getTransactionReceiptHandler settingsAlchemy receiptEnvFound true sampleMsg).result.map
        ActionResult.dataMethod = .ok none
      ∧ (getTransactionReceiptHandler settingsAlchemy receiptEnvFound true
            sampleMsg).result.map ActionResult.success = .ok true :=
  ⟨by decide, by decide⟩

/-- **C5 (amended).** Provider selection: in the gas-price, storage and
batch-info handlers every RPC request targets the Alchemy gateway URL (the
`ZKEVM_ALCHEMY_URL` setting or its default, suffixed with the key) when
`ALCHEMY_API_KEY` is present and the raw `ZKEVM_RPC_URL` otherwise, and a
success result reports method `alchemy` resp. `rpc`.  In the block-details
handler a successful Alchemy attempt reports `alchemy`, and when the Alchemy
attempt yields no block and `ZKEVM_RPC_URL` is set the handler falls back to
the raw RPC provider and reports `rpc`.  The transaction-receipt handler
performs the same URL selection (defaulting to the public RPC URL when
`ZKEVM_RPC_URL` is unset) but reports no method in any result. -/
theorem claim5_amended (s : Settings) (cb : Bool) (mt : String)
    (envG : GasEnv) (envS : StorageEnv) (envR : ReceiptEnv) (envB : BlockEnv)
    (envT : BatchEnv) (vB : BlockLLMOut) (n : Int) (b : BlockJson) :
    ((∀ nm u p, Event.rpc nm u p ∈ (getGasPriceHandler s envG cb).events →
        u = (if truthyStr s.alchemyApiKey = true then
              alchemyBaseUrl s ++ "/" ++ s.alchemyApiKey.getD ""
            else s.zkevmRpcUrl.getD ""))
      ∧ (∀ res, (getGasPriceHandler s envG cb).result = .ok res →
          res.success = true →
          res.dataMethod
            = some (if truthyStr s.alchemyApiKey = true then "alchemy" else "rpc")))
    ∧ ((∀ nm u p, Event.rpc nm u p ∈ (getStorageAtHandler s envS cb).events →
        u = (if truthyStr s.alchemyApiKey = true then
              alchemyBaseUrl s ++ "/" ++ s.alchemyApiKey.getD ""
            else s.zkevmRpcUrl.getD ""))
      ∧ (∀ res, (getStorageAtHandler s envS cb).result = .ok res →
          res.success = true →
          res.dataMethod
            = some (if truthyStr s.alchemyApiKey = true then "alchemy" else "rpc")))
    ∧ ((∀ nm u p, Event.rpc nm u p ∈ (getBatchInfoHandler s envT cb).events →
        u = (if truthyStr s.alchemyApiKey = true then
              alchemyBaseUrl s ++ "/" ++ s.alchemyApiKey.getD ""
            else s.zkevmRpcUrl.getD ""))
      ∧ (∀ res, (getBatchInfoHandler s envT cb).result = .ok res →
          res.success = true →
          res.dataMethod
            = some (if truthyStr s.alchemyApiKey = true then "alchemy" else "rpc")))
    ∧ (truthyStr s.alchemyApiKey = true →
       envB.llm = .ok vB → truthyStr vB.error = false →
       vB.blockNumber = some (.num n) → n ≠ 0 →
       envB.alchemy = .result (some b) →
       ∃ res, (getBlockDetailsByNumberHandler s envB cb).result = .ok res
         ∧ res.success = true ∧ res.dataMethod = some "alchemy")
    ∧ (truthyStr s.zkevmRpcUrl = true →
       envB.llm = .ok vB → truthyStr vB.error = false →
       vB.blockNumber = some (.num n) → n ≠ 0 →
       envB.alchemy.block = none →
       envB.rpcGetBlock = .ok (some b) →
       ∃ res, (getBlockDetailsByNumberHandler s envB cb).result = .ok res
         ∧ res.success = true ∧ res.dataMethod = some "rpc"
         ∧ Event.rpc "eth_getBlockByNumber" (s.zkevmRpcUrl.getD "")
             [toString n, "true"]
             ∈ (getBlockDetailsByNumberHandler s envB cb).events)
    ∧ ((∀ nm u p,
          Event.rpc nm u p ∈ (getTransactionReceiptHandler s envR cb mt).events →
          u = (if truthyStr s.alchemyApiKey = true then
                alchemyBaseUrl s ++ "/" ++ s.alchemyApiKey.getD ""
              else jsOr s.zkevmRpcUrl defaultPublicRpc))
      ∧ (∀ res, (getTransactionReceiptHandler s envR cb mt).result = .ok res →
          res.dataMethod = none)) := by
  have hsel1 : (selectProvider s).1
      = (if truthyStr s.alchemyApiKey = true then
          alchemyBaseUrl s ++ "/" ++ s.alchemyApiKey.getD ""
        else s.zkevmRpcUrl.getD "") := by
    cases hA : truthyStr s.alchemyApiKey <;> simp [selectProvider, hA]
  have hsel2 : (selectProvider s).2
      = (if truthyStr s.alchemyApiKey = true then "alchemy" else "rpc") := by
    cases hA : truthyStr s.alchemyApiKey <;> simp [selectProvider, hA]
  refine ⟨⟨?_, ?_⟩, ⟨?_, ?_⟩, ⟨?_, ?_⟩, ?_, ?_, ⟨?_, ?_⟩⟩
  · intro nm u p hm
    rw [← hsel1]
    rcases envG with ⟨llm, egp, fd⟩
    cases hg : (!(truthyStr s.alchemyApiKey) && !(truthyStr s.zkevmRpcUrl)) with
    | true => cases cb <;> simp [getGasPriceHandler, hg] at hm
    | false =>
        cases egp with
        | error e =>
            cases cb <;> simp [getGasPriceHandler, hg] at hm <;> exact hm.2.1
        | ok wei =>
            cases cb <;> simp [getGasPriceHandler, hg] at hm <;>
              rcases hm with h1 | h1 <;> exact h1.2.1
  · intro res hres hsucc
    rcases envG with ⟨llm, egp, fd⟩
    cases hg : (!(truthyStr s.alchemyApiKey) && !(truthyStr s.zkevmRpcUrl)) with
    | true =>
        simp [getGasPriceHandler, hg] at hres
        subst hres; simp [gasFailResult] at hsucc
    | false =>
        cases egp with
        | error e =>
            simp [getGasPriceHandler, hg] at hres
            subst hres; simp [gasFailResult] at hsucc
        | ok wei =>
            simp [getGasPriceHandler, hg] at hres
            subst hres; exact congrArg some hsel2
  · intro nm u p hm
    rw [← hsel1]
    rcases envS with ⟨llm, gs⟩
    cases hg : (!(truthyStr s.alchemyApiKey) && !(truthyStr s.zkevmRpcUrl)) with
    | true => cases cb <;> simp [getStorageAtHandler, hg] at hm
    | false =>
        cases llm with
        | throws m => cases cb <;> simp [getStorageAtHandler, hg] at hm
        | ok v =>
            by_cases he : truthyStr v.error = true
            · cases cb <;> simp [getStorageAtHandler, hg, he] at hm
            · rw [Bool.not_eq_true] at he
              by_cases hap : (!(truthyOpt v.address) || !(truthyOpt v.position)) = true
              · cases cb <;> simp [getStorageAtHandler, hg, he, hap] at hm
              · rw [Bool.not_eq_true] at hap
                cases gs with
                | error e =>
                    simp [getStorageAtHandler, hg, he, hap] at hm
                    exact hm.2.1
                | ok sv =>
                    cases hsi : storageInterp sv with
                    | error e2 =>
                        simp [getStorageAtHandler, hg, he, hap, hsi] at hm
                        exact hm.2.1
                    | ok interp =>
                        cases cb <;>
                          simp [getStorageAtHandler, hg, he, hap, hsi] at hm <;>
                          exact hm.2.1
  · intro res hres hsucc
    rcases envS with ⟨llm, gs⟩
    cases hg : (!(truthyStr s.alchemyApiKey) && !(truthyStr s.zkevmRpcUrl)) with
    | true =>
        simp [getStorageAtHandler, hg] at hres
        subst hres; simp [storageFailResult] at hsucc
    | false =>
        cases llm with
        | throws m =>
            simp [getStorageAtHandler, hg] at hres
            subst hres; simp [storageFailResult] at hsucc
        | ok v =>
            by_cases he : truthyStr v.error = true
            · simp [getStorageAtHandler, hg, he] at hres
              subst hres; simp [storageFailResult] at hsucc
            · rw [Bool.not_eq_true] at he
              by_cases hap : (!(truthyOpt v.address) || !(truthyOpt v.position)) = true
              · simp [getStorageAtHandler, hg, he, hap] at hres
                subst hres; simp [storageFailResult] at hsucc
              · rw [Bool.not_eq_true] at hap
                cases gs with
                | error e => simp [getStorageAtHandler, hg, he, hap] at hres
                | ok sv =>
                    cases hsi : storageInterp sv with
                    | error e2 => simp [getStorageAtHandler, hg, he, hap, hsi] at hres
                    | ok interp =>
                        simp [getStorageAtHandler, hg, he, hap, hsi] at hres
                        subst hres; exact congrArg some hsel2
  · intro nm u p hm
    rw [← hsel1]
    rcases envT with ⟨llm, g1, g2, now⟩
    cases hg : (!(truthyStr s.alchemyApiKey) && !(truthyStr s.zkevmRpcUrl)) with
    | true => cases cb <;> simp [getBatchInfoHandler, hg] at hm
    | false =>
        cases llm with
        | throws m => cases cb <;> simp [getBatchInfoHandler, hg] at hm
        | ok v =>
            by_cases he : truthyStr v.error = true
            · cases cb <;> simp [getBatchInfoHandler, hg, he] at hm
            · rw [Bool.not_eq_true] at he
              by_cases hb : (!(truthyOpt v.batchNumber) || !(isNumOpt v.batchNumber)) = true
              · cases cb <;> simp [getBatchInfoHandler, hg, he, hb] at hm
              · rw [Bool.not_eq_true] at hb
                rcases g1 with m1 | od1 <;>
                  (try rcases od1 with _ | d1) <;>
                  (try rcases g2 with m2 | od2) <;>
                  (try rcases od2 with _ | d2) <;>
                  cases cb <;>
                  simp [getBatchInfoHandler, hg, he, hb] at hm <;>
                  first
                    | exact hm.2.1
                    | (rcases hm with h1 | h1 <;> exact h1.2.1)
  · intro res hres hsucc
    rcases envT with ⟨llm, g1, g2, now⟩
    cases hg : (!(truthyStr s.alchemyApiKey) && !(truthyStr s.zkevmRpcUrl)) with
    | true =>
        simp [getBatchInfoHandler, hg] at hres
        subst hres; simp [batchFailResult] at hsucc
    | false =>
        cases llm with
        | throws m =>
            simp [getBatchInfoHandler, hg] at hres
            subst hres; simp [batchFailResult] at hsucc
        | ok v =>
            by_cases he : truthyStr v.error = true
            · simp [getBatchInfoHandler, hg, he] at hres
              subst hres; simp [batchFailResult] at hsucc
            · rw [Bool.not_eq_true] at he
              by_cases hb : (!(truthyOpt v.batchNumber) || !(isNumOpt v.batchNumber)) = true
              · simp [getBatchInfoHandler, hg, he, hb] at hres
                subst hres; simp [batchFailResult] at hsucc
              · rw [Bool.not_eq_true] at hb
                rcases g1 with m1 | od1 <;>
                  (try rcases od1 with _ | d1) <;>
                  (try rcases g2 with m2 | od2) <;>
                  (try rcases od2 with _ | d2) <;>
                  simp [getBatchInfoHandler, hg, he, hb] at hres <;>
                  subst hres <;>
                  first
                    | exact congrArg some hsel2
                    | simp [batchNotFoundResult] at hsucc
  · intro hA hl he hbn hn hal
    have hg : (!(truthyStr s.alchemyApiKey) && !(truthyStr s.zkevmRpcUrl)) = false := by
      rw [hA]; rfl
    refine ⟨blockSuccessResult n "alchemy" b, ?_, rfl, rfl⟩
    simp [getBlockDetailsByNumberHandler, hg, hA, hl, he, hbn, hn, hal, truthyOpt,
      JsVal.truthy, isNumOpt]
  · intro hR hl he hbn hn hab hrb
    have hg : (!(truthyStr s.alchemyApiKey) && !(truthyStr s.zkevmRpcUrl)) = false := by
      cases hA : truthyStr s.alchemyApiKey <;> rw [hR] <;> simp
    refine ⟨blockSuccessResult n "rpc" b, ?_, rfl, rfl, ?_⟩ <;>
    · cases hA : truthyStr s.alchemyApiKey <;>
        cases hal : envB.alchemy with
        | throws m1 =>
            simp [getBlockDetailsByNumberHandler, hg, hA, hR, hl, he, hbn, hn, hal, hrb,
              truthyOpt, JsVal.truthy, isNumOpt]
        | result ob =>
            rw [hal] at hab
            simp only [AlchemyRes.block] at hab
            subst hab
            simp [getBlockDetailsByNumberHandler, hg, hA, hR, hl, he, hbn, hn, hal, hrb,
              truthyOpt, JsVal.truthy, isNumOpt]
  · intro nm u p hm
    have hurl : receiptProviderUrl s
        = (if truthyStr s.alchemyApiKey = true then
            alchemyBaseUrl s ++ "/" ++ s.alchemyApiKey.getD ""
          else jsOr s.zkevmRpcUrl defaultPublicRpc) := by
      cases hA : truthyStr s.alchemyApiKey <;> simp [receiptProviderUrl, hA]
    rw [← hurl]
    rcases envR with ⟨rc⟩
    cases hmt : firstTxHash mt.toList with
    | none =>
        simp only [String.toList] at hmt
        cases cb <;> simp [getTransactionReceiptHandler, receiptCatch, hmt] at hm
    | some txh =>
        simp only [String.toList] at hmt
        rcases rc with e | orc <;> (try rcases orc with _ | r) <;>
          cases cb <;>
          simp [getTransactionReceiptHandler, receiptCatch, hmt] at hm <;>
          exact hm.2.1
  · intro res hres
    rcases envR with ⟨rc⟩
    cases hmt : firstTxHash mt.toList with
    | none =>
        simp only [String.toList] at hmt
        cases cb with
        | true =>
            simp [getTransactionReceiptHandler, hmt] at hres
            subst hres; rfl
        | false => simp [getTransactionReceiptHandler, receiptCatch, hmt] at hres
    | some txh =>
        simp only [String.toList] at hmt
        rcases rc with e | orc
        · cases cb with
          | true =>
              simp [getTransactionReceiptHandler, receiptCatch, hmt] at hres
              subst hres; rfl
          | false => simp [getTransactionReceiptHandler, receiptCatch, hmt] at hres
        · rcases orc with _ | r <;> cases cb with
          | true =>
              simp [getTransactionReceiptHandler, receiptCatch, hmt] at hres
              subst hres; rfl
          | false => simp [getTransactionReceiptHandler, receiptCatch, hmt] at hres

/-- Witness for the amended C5 at concrete inputs. -/
theorem claim5_amended_witness :
    ∃ res,
      (getBlockDetailsByNumberHandler settingsAlchemy blockEnvAlcOk true).result = .ok res
        ∧ res.success = true ∧ res.dataMethod = some "alchemy" :=
  (claim5_amended settingsAlchemy true sampleMsg gasEnv0 storageEnv0 receiptEnvFound
      blockEnvAlcOk batchEnv0 blockLLM5 5 sampleBlockJson).2.2.2.1 (by decide) rfl rfl rfl
    (by decide) rfl

end ZkEvm
